import Mathlib

/-!
Verification of the GAX driver identification-and-patch engine
(`src/gaxtapper/gax_driver.cpp`).

The memory image (`std::string`/`std::string_view` of bytes) is embedded as
`List Nat`, each element an octet value.  Fallible C++ operations that throw
become `Except`; reads that would touch bytes outside the image (undefined
behaviour on a `string_view`) are modelled by `Option`-returning readers.
Helper functions declared only in headers that accompany the translation unit
(the address-space helpers, the driver template blobs and their patch-offset
tables, the parameter records) are modelled from the specification and are
marked as such in their doc comments.
-/

namespace Gaxtapper

/-- Read an unsigned 8-bit value (total; out-of-range reads give 0,
the checked variant is `readInt8c`). -/
def readInt8 (l : List Nat) (i : Nat) : Nat := l.getD i 0

/-- Read an unsigned 16-bit little-endian value (total). -/
def readInt16L (l : List Nat) (i : Nat) : Nat :=
  l.getD i 0 + 256 * l.getD (i + 1) 0

/-- Read an unsigned 32-bit little-endian value (total). -/
def readInt32L (l : List Nat) (i : Nat) : Nat :=
  l.getD i 0 + 256 * l.getD (i + 1) 0 + 65536 * l.getD (i + 2) 0 +
    16777216 * l.getD (i + 3) 0

/-- `WriteInt8`: store one byte at index `i`. -/
def writeInt8 (l : List Nat) (i v : Nat) : List Nat := l.set i (v % 256)

/-- `WriteInt16L`: store a 16-bit value little-endian at index `i`. -/
def writeInt16L (l : List Nat) (i v : Nat) : List Nat :=
  (l.set i (v % 256)).set (i + 1) (v / 256 % 256)

/-- `WriteInt32L`: store a 32-bit value little-endian at index `i`. -/
def writeInt32L (l : List Nat) (i v : Nat) : List Nat :=
  ((((l.set i (v % 256)).set (i + 1) (v / 256 % 256)).set
      (i + 2) (v / 65536 % 256)).set (i + 3) (v / 16777216 % 256))

/-- `std::memcpy(&rom[i], block.data(), block.size())`: overlay `block`
onto `l` starting at index `i`. -/
def memcpyAt (l : List Nat) (i : Nat) (block : List Nat) : List Nat :=
  l.take i ++ block ++ l.drop (i + block.length)

/-- Does `pat` occur in `rom` starting exactly at index `i`? -/
def matchesAt (rom pat : List Nat) (i : Nat) : Bool :=
  (rom.drop i).take pat.length == pat

/-- Helper for `strFind`: scan indices `i, i+1, ...` (`fuel` of them). -/
def strFindAux (rom pat : List Nat) : Nat → Nat → Option Nat
  | _, 0 => none
  | i, fuel + 1 =>
    if matchesAt rom pat i then some i else strFindAux rom pat (i + 1) fuel

/-- `std::string_view::find(pat, offset)`: index of the first occurrence of
`pat` in `rom` at or after `offset`, `none` for `npos`. -/
def strFind (rom pat : List Nat) (offset : Nat) : Option Nat :=
  if offset ≤ rom.length then
    strFindAux rom pat offset (rom.length + 1 - offset)
  else none

/-- Checked 8-bit read: `none` when the byte lies outside the image
(an out-of-bounds access in the C++ source). -/
def readInt8c (l : List Nat) (i : Nat) : Option Nat :=
  if i < l.length then some (l.getD i 0) else none

/-- Checked 32-bit little-endian read: `none` when any of the four bytes
lies outside the image (an out-of-bounds access in the C++ source). -/
def readInt32Lc (l : List Nat) (i : Nat) : Option Nat :=
  if i + 4 ≤ l.length then some (readInt32L l i) else none

/-- Modelled from the spec: the sentinel null address (`agbnullptr`,
`types.hpp` is not part of the provided sources; spec §3 "Address"). -/
def agbnullptr : Nat := 0

/-- Modelled from the spec: `toOffset` strips the region tag of an address
to a flat byte offset (§4.1); the ROM regions are `0x2000000` bytes wide and
ROM mirrors begin at multiples of it, so the flat offset is the residue. -/
def to_offset (a : Nat) : Nat := a % 0x2000000

/-- Modelled from the spec: `toRomAddress` re-tags a flat offset as an
address in the primary ROM mirror (§4.1). -/
def to_romptr (n : Nat) : Nat := 0x8000000 + n % 0x2000000

/-- Modelled from the spec: ROM addresses occupy the two high-byte mirrors
`0x08` and `0x09` (§3 "Address", §4.1). -/
def is_romptr (a : Nat) : Bool := 0x8000000 ≤ a && a < 0xA000000

/-- Modelled from the spec: the slower external RAM region (high byte
`0x02`, 256 KiB). -/
def is_ewramptr (a : Nat) : Bool := 0x2000000 ≤ a && a < 0x2040000

/-- Modelled from the spec: the fast on-chip RAM region (high byte `0x03`,
32 KiB). -/
def is_iwramptr (a : Nat) : Bool := 0x3000000 ≤ a && a < 0x3008000

/-- Modelled from the spec: `make_arm_b from to` encodes the unconditional
ARM branch placed at `from` that jumps to `to` (§4.4 step 4; `arm.hpp` is
not part of the provided sources).  The 24-bit signed word displacement is
computed with wrap-around 32-bit arithmetic. -/
def make_arm_b (source target : Nat) : Nat :=
  0xEA000000 + (target + 2 ^ 32 * 8 - source - 8) % 2 ^ 32 / 4 % 0x1000000

/-- Engine version pair; `⟨0, 0⟩` denotes "unknown/unparsed" (spec §3). -/
structure GaxVersion where
  major_version : Nat
  minor_version : Nat
deriving DecidableEq

/-- ASCII decimal digit test. -/
def isDigitByte (b : Nat) : Bool := 48 ≤ b && b ≤ 57

/-- Value of a string of ASCII decimal digits. -/
def natOfDigits (ds : List Nat) : Nat := ds.foldl (fun a d => a * 10 + (d - 48)) 0

/-- Modelled from the spec: `GaxVersion::Parse text pos` parses the digits
and dots of `text` from position `pos` as a `(major, minor)` pair; any parse
failure yields the unknown version and nothing is thrown (§4.3;
`gax_version` sources are not provided).  The major number is the leading
digit run; a following `.` introduces the minor digit run. -/
def GaxVersion.Parse (text : List Nat) (pos : Nat) : GaxVersion :=
  let s := text.drop pos
  let majorDigits := s.takeWhile isDigitByte
  if majorDigits.isEmpty then ⟨0, 0⟩
  else
    let rest := s.drop majorDigits.length
    let minor :=
      if rest.getD 0 0 = 46 then
        natOfDigits ((rest.drop 1).takeWhile isDigitByte)
      else 0
    ⟨natOfDigits majorDigits, minor⟩

/-- Music-table entry located by the external scanning collaborator; only
its address is consumed by this core (spec §3 "TrackRecord"; name/artist
metadata is out of scope §1). -/
structure GaxMusicEntry where
  address : Nat
deriving DecidableEq

/-- Modelled from the spec: `GaxMusicEntry::Scan` is an external
collaborator, out of scope for this core (§1, §2): only its interface (an
ordered sequence of track records) is part of the contract.  No claim
depends on its output; it is modelled as the empty sequence. -/
def GaxMusicEntry.Scan (_rom : List Nat) (_version : GaxVersion) : List GaxMusicEntry :=
  []

/-- Identification record produced by `Inspect` (spec §3
"IdentificationRecord"; `gax_driver_param.hpp` is not part of the provided
sources, the field list follows the spec and the uses in
`gax_driver.cpp`). -/
structure GaxDriverParam where
  version_text : List Nat
  version : GaxVersion
  gax2_estimate : Nat
  gax2_new : Nat
  gax2_init : Nat
  gax_irq : Nat
  gax_play : Nat
  gax_wram_pointer : Nat
  songs : List GaxMusicEntry
deriving DecidableEq

/-- Modelled from the spec: the record is complete iff the version is
non-zero and all five entry-point addresses are non-null (§3
"IdentificationRecord" invariant). -/
def GaxDriverParam.ok (p : GaxDriverParam) : Bool :=
  !(p.version == ⟨0, 0⟩) && p.gax2_estimate != agbnullptr &&
    p.gax2_new != agbnullptr && p.gax2_init != agbnullptr &&
    p.gax_irq != agbnullptr && p.gax_play != agbnullptr

/-- Per-track parameter set consumed by `NewMinigsfData` (spec §3
"TrackExtractionParams"; `gax_minigsf_driver_param.hpp` is not part of the
provided sources). -/
structure GaxMinigsfDriverParam where
  song : GaxMusicEntry
  fx : Option GaxMusicEntry
  fxid : Nat
  flags : Nat
  mixing_rate : Nat
  volume : Nat
deriving DecidableEq

/-- Modelled from the spec: `ok()` requires a valid (non-null) track
address (§3 "TrackExtractionParams" invariant). -/
def GaxMinigsfDriverParam.ok (p : GaxMinigsfDriverParam) : Bool :=
  p.song.address != agbnullptr

/-- Modelled from the spec: the diagnostic table emitted on an incomplete
track-parameter set names the unset fields (§4.5). -/
def unsetMinigsfFields (p : GaxMinigsfDriverParam) : List String :=
  if p.song.address = agbnullptr then ["song"] else []

/-- Exceptions surfaced by the installer and the serializer (spec §6
"Errors surfaced to the caller"). -/
inductive DriverError where
  | invalidArgument (message : String) (table : List String)
  | outOfRange (message : String)
deriving DecidableEq

/-- Modelled from the spec: the major-3 machine-code driver template
(`gax3_driver_block`) is an opaque external binary asset (§4.4 step 2, §6,
§9); only its length and its patch-offset table are contracts of this core.
Placeholder bytes stand for the machine code. -/
def gax3_driver_block : List Nat := List.replicate 48 0

/-- Modelled from the spec: the non-major-3 machine-code driver template
(`gax2_driver_block`), an opaque external binary asset (§4.4 step 2, §6,
§9).  Placeholder bytes stand for the machine code. -/
def gax2_driver_block : List Nat := List.replicate 40 0

/-- Modelled from the spec: patch offset of `gax2_estimate` in the major-3
template (§4.4 step 3; the offset table of `gax_driver.hpp` is not part of
the provided sources, the offsets are fixed, distinct, 4-byte slots inside
the template). -/
def kGax2EstimateOffsetV3 : Nat := 0x10

/-- Modelled from the spec: patch offset of `gax2_new` in the major-3
template. -/
def kGax2NewOffsetV3 : Nat := 0x14

/-- Modelled from the spec: patch offset of `gax2_init` in the major-3
template. -/
def kGax2InitOffsetV3 : Nat := 0x18

/-- Modelled from the spec: patch offset of `gax_irq` in the major-3
template. -/
def kGaxIrqOffsetV3 : Nat := 0x1c

/-- Modelled from the spec: patch offset of `gax_play` in the major-3
template. -/
def kGaxPlayOffsetV3 : Nat := 0x20

/-- Modelled from the spec: patch offset of the resolved work address in
the major-3 template. -/
def kMyWorkRamOffsetV3 : Nat := 0x24

/-- Modelled from the spec: patch offset of the single byte selecting the
internal parameter-table offset in the major-3 template (§4.4 step 3). -/
def kGax2ParamFxImmOffsetV3 : Nat := 0x28

/-- Modelled from the spec: patch offset of `gax2_new` in the non-major-3
template. -/
def kGax2NewOffsetV2 : Nat := 0x10

/-- Modelled from the spec: patch offset of `gax2_init` in the non-major-3
template. -/
def kGax2InitOffsetV2 : Nat := 0x14

/-- Modelled from the spec: patch offset of `gax_irq` in the non-major-3
template. -/
def kGaxIrqOffsetV2 : Nat := 0x18

/-- Modelled from the spec: patch offset of `gax_play` in the non-major-3
template. -/
def kGaxPlayOffsetV2 : Nat := 0x1c

/-- Modelled from the spec: patch offset of the resolved work address in
the non-major-3 template. -/
def kMyWorkRamOffsetV2 : Nat := 0x20

/-- Modelled from the spec: patch offset of the work-memory size in the
non-major-3 template (§4.4 step 3, non-major-3 only). -/
def kMyWorkRamSizeOffsetV2 : Nat := 0x24

/-- Modelled from the spec: `gsf_driver_size(version)` is the byte length
of the template selected by the major version (§4.4 precondition 3 and
step 2: "two templates only"). -/
def gsf_driver_size (v : GaxVersion) : Nat :=
  if v.major_version = 3 then gax3_driver_block.length else gax2_driver_block.length

/-- Modelled from the spec: the fixed 20-byte size of the serialized
track-parameter block (§4.5). -/
def kMinigsfParamSize : Nat := 20

/-- Modelled from the spec: offset of the track address in the serialized
block (§4.5: fields little-endian in fixed consecutive positions). -/
def kMinigsfParamMyMusicOffset : Nat := 0

/-- Modelled from the spec: offset of the effect address in the serialized
block. -/
def kMinigsfParamMyFxOffset : Nat := 4

/-- Modelled from the spec: offset of the effect id in the serialized
block. -/
def kMinigsfParamMyFxIdOffset : Nat := 8

/-- Modelled from the spec: offset of the flags in the serialized block. -/
def kMinigsfParamMyFlagsOffset : Nat := 10

/-- Modelled from the spec: offset of the mixing rate in the serialized
block. -/
def kMinigsfParamMyMixingRateOffset : Nat := 12

/-- Modelled from the spec: offset of the volume in the serialized
block. -/
def kMinigsfParamMyVolumeOffset : Nat := 14

/-- Bytes of the ASCII marker `"GAX Sound Engine "`
(`kVersionTextPrefixPattern`, `gax_driver.cpp` line 20). -/
def versionTextMarker : List Nat :=
  [71, 65, 88, 32, 83, 111, 117, 110, 100, 32, 69, 110, 103, 105, 110, 101, 32]

/-- Shared loop body of the five entry-point finders (`gax_driver.cpp`
lines 177-183 and the analogous loops): try the patterns in listed order;
the first pattern with an occurrence at or after `offset` wins, its first
occurrence converted to a ROM address; otherwise the null address. -/
def find_pattern (patterns : List (List Nat)) (rom : List Nat) (offset : Nat) : Nat :=
  match patterns with
  | [] => agbnullptr
  | p :: rest =>
    match strFind rom p offset with
    | some n => to_romptr (n % 2 ^ 32)
    | none => find_pattern rest rom offset

/-- Signature patterns of `FindGax2Estimate` (lines 170-176). -/
def gax2EstimatePatterns : List (List Nat) :=
  [[0xf0, 0xb5, 0x57, 0x46, 0x4e, 0x46, 0x45, 0x46, 0xe0, 0xb4, 0x82, 0xb0,
    0x07, 0x1c, 0x00, 0x24, 0x00, 0x20, 0x00, 0x90],
   [0xf0, 0xb5, 0x57, 0x46, 0x4e, 0x46, 0x45, 0x46, 0xe0, 0xb4, 0x8b, 0xb0,
    0x00, 0x90, 0x00, 0x20, 0x80, 0x46, 0x00, 0x21],
   [0xf0, 0xb5, 0x57, 0x46, 0x4e, 0x46, 0x45, 0x46, 0xe0, 0xb4, 0x8a, 0xb0,
    0x81, 0x46, 0x00, 0x27, 0x00, 0x20, 0x02, 0x90],
   [0xf0, 0xb5, 0x57, 0x46, 0x4e, 0x46, 0x45, 0x46, 0xe0, 0xb4, 0x88, 0xb0,
    0x00, 0x90, 0x00, 0x27, 0x00, 0x20, 0x02, 0x90],
   [0xf0, 0xb5, 0x57, 0x46, 0x4e, 0x46, 0x45, 0x46, 0xe0, 0xb4, 0x87, 0xb0,
    0x00, 0x90, 0x00, 0x27, 0x00, 0x20, 0x02, 0x90]]

/-- Signature patterns of `FindGax2New` (lines 189-192). -/
def gax2NewPatterns : List (List Nat) :=
  [[0xf0, 0xb5, 0x47, 0x46, 0x80, 0xb4, 0x81, 0xb0, 0x06, 0x1c, 0x00, 0x2e],
   [0x10, 0xb5, 0x04, 0x1c, 0x00, 0x2c, 0x09, 0xd1, 0x02, 0x48, 0x03, 0x49]]

/-- Signature patterns of `FindGax2Init` (lines 205-213). -/
def gax2InitPatterns : List (List Nat) :=
  [[0xf0, 0xb5, 0x57, 0x46, 0x4e, 0x46, 0x45, 0x46, 0xe0, 0xb4, 0x81, 0xb0,
    0x07, 0x1c, 0x00, 0x26, 0x0e, 0x48, 0x39, 0x68],
   [0xf0, 0xb5, 0x57, 0x46, 0x4e, 0x46, 0x45, 0x46, 0xe0, 0xb4, 0x81, 0xb0,
    0x07, 0x1c, 0x00, 0x22, 0x0e, 0x48, 0x39, 0x68],
   [0xf0, 0xb5, 0x57, 0x46, 0x4e, 0x46, 0x45, 0x46, 0xe0, 0xb4, 0x86, 0xb0,
    0x07, 0x1c, 0x00, 0x20, 0x05, 0x90, 0x3a, 0x68],
   [0xf0, 0xb5, 0x57, 0x46, 0x4e, 0x46, 0x45, 0x46, 0xe0, 0xb4, 0x84, 0xb0,
    0x07, 0x1c, 0x00, 0x20, 0x82, 0x46, 0x3c, 0x68],
   [0xf0, 0xb5, 0x57, 0x46, 0x4e, 0x46, 0x45, 0x46, 0xe0, 0xb4, 0x84, 0xb0,
    0x07, 0x1c, 0x00, 0x20, 0x81, 0x46, 0x3b, 0x68],
   [0xf0, 0xb5, 0x57, 0x46, 0x4e, 0x46, 0x45, 0x46, 0xe0, 0xb4, 0x83, 0xb0,
    0x07, 0x1c, 0x00, 0x20, 0x81, 0x46, 0x3b, 0x68]]

/-- Signature patterns of `FindGaxIrq` (lines 226-232). -/
def gaxIrqPatterns : List (List Nat) :=
  [[0xf0, 0xb5, 0x3b, 0x48, 0x02, 0x68, 0x11, 0x68, 0x3a, 0x48, 0x81, 0x42,
    0x6d, 0xd1, 0x50, 0x6d, 0x00, 0x28, 0x6a, 0xd0, 0x50, 0x6d, 0x01, 0x28,
    0x1a, 0xd1, 0x02, 0x20, 0x50, 0x65, 0x36, 0x49],
   [0xf0, 0xb5, 0x33, 0x48, 0x03, 0x68, 0x1a, 0x68, 0x32, 0x49, 0x07, 0x1c,
    0x8a, 0x42, 0x5b, 0xd1, 0x58, 0x6d, 0x00, 0x28, 0x58, 0xd0, 0x58, 0x6d,
    0x01, 0x28, 0x1a, 0xd1, 0x02, 0x20, 0x58, 0x65],
   [0xf0, 0xb5, 0x3f, 0x48, 0x02, 0x68, 0x11, 0x68, 0x3e, 0x48, 0x81, 0x42,
    0x75, 0xd1, 0x90, 0x6b, 0x00, 0x28, 0x72, 0xd0, 0x90, 0x6b, 0x01, 0x28,
    0x1a, 0xd1, 0x3b, 0x49, 0x80, 0x20, 0x08, 0x80],
   [0x10, 0xb5, 0x27, 0x4c, 0x23, 0x68, 0x19, 0x68, 0x26, 0x48, 0x81, 0x42,
    0x44, 0xd1, 0x18, 0x6b, 0x00, 0x28, 0x41, 0xd0, 0x18, 0x6b, 0x01, 0x28,
    0x10, 0xd1, 0x23, 0x49, 0x80, 0x20, 0x08, 0x80],
   [0x10, 0xb5, 0x25, 0x4c, 0x23, 0x68, 0x19, 0x68, 0x24, 0x48, 0x81, 0x42,
    0x40, 0xd1, 0x18, 0x6b, 0x00, 0x28, 0x3d, 0xd0, 0x18, 0x6b, 0x01, 0x28,
    0x10, 0xd1, 0x21, 0x49, 0x80, 0x20, 0x08, 0x80]]

/-- Signature patterns of `FindGaxPlay` (lines 245-250). -/
def gaxPlayPatterns : List (List Nat) :=
  [[0x70, 0xb5, 0x81, 0xb0, 0x47, 0x48, 0x01, 0x68, 0x48, 0x6d, 0x00, 0x28,
    0x00, 0xd1],
   [0xf0, 0xb5, 0x81, 0xb0, 0x3a, 0x48, 0x01, 0x68, 0x88, 0x6b, 0x00, 0x28,
    0x00, 0xd1],
   [0xf0, 0xb5, 0x30, 0x4d, 0x29, 0x68, 0x88, 0x6b, 0x00, 0x28, 0x00, 0xd1,
    0xd4, 0xe0],
   [0x70, 0xb5, 0x4c, 0x4e, 0x31, 0x68, 0x08, 0x6b, 0x00, 0x28, 0x00, 0xd1,
    0x8e, 0xe0]]

/-- `GaxDriver::FindGax2Estimate` (lines 167-184). -/
def FindGax2Estimate (rom : List Nat) (offset : Nat := 0) : Nat :=
  find_pattern gax2EstimatePatterns rom offset

/-- `GaxDriver::FindGax2New` (lines 186-200). -/
def FindGax2New (rom : List Nat) (offset : Nat := 0) : Nat :=
  find_pattern gax2NewPatterns rom offset

/-- `GaxDriver::FindGax2Init` (lines 202-221). -/
def FindGax2Init (rom : List Nat) (offset : Nat := 0) : Nat :=
  find_pattern gax2InitPatterns rom offset

/-- `GaxDriver::FindGaxIrq` (lines 223-240). -/
def FindGaxIrq (rom : List Nat) (offset : Nat := 0) : Nat :=
  find_pattern gaxIrqPatterns rom offset

/-- `GaxDriver::FindGaxPlay` (lines 242-258). -/
def FindGaxPlay (rom : List Nat) (offset : Nat := 0) : Nat :=
  find_pattern gaxPlayPatterns rom offset

/-- `GaxDriver::FindGaxVersionText` (lines 142-165): locate the marker,
keep at most 128 bytes starting at it, cut at the first null byte, then cut
at a copyright byte `0xa9` trimming one extra preceding separator byte.
The C++ computes `copyright_offset - 1` in the unsigned `size_type`; the
(unreachable) wrap-around at `copyright_offset = 0` makes `substr` keep the
whole string, modelled by the inner conditional. -/
def FindGaxVersionText (rom : List Nat) (offset : Nat := 0) : List Nat :=
  match strFind rom versionTextMarker offset with
  | none => []
  | some start_offset =>
    let version_text_with_noise := (rom.drop start_offset).take 128
    let full_version_text :=
      match strFind version_text_with_noise [0] 0 with
      | some end_offset => version_text_with_noise.take end_offset
      | none => version_text_with_noise
    match strFind full_version_text [0xa9] 0 with
    | some copyright_offset =>
      full_version_text.take
        (if copyright_offset = 0 then full_version_text.length
         else copyright_offset - 1)
    | none => full_version_text

/-- `GaxDriver::ParseVersionText` (lines 134-140). -/
def ParseVersionText (version_text : List Nat) : GaxVersion :=
  if version_text.length < versionTextMarker.length + 1 then ⟨0, 0⟩
  else
    let c := version_text.getD versionTextMarker.length 0
    let v := if c = 118 || c = 86 then 1 else 0
    GaxVersion.Parse version_text (versionTextMarker.length + v)

/-- `GaxDriver::FindGaxWorkRamPointerV2` (lines 269-280).  A `none` result
marks an out-of-bounds byte access of the C++ code (undefined behaviour);
in-bounds runs yield `some` of the returned address. -/
def FindGaxWorkRamPointerV2 (rom : List Nat) (gax_play : Nat) : Option Nat :=
  if gax_play = agbnullptr then some agbnullptr
  else
    let gax_play_offset := to_offset gax_play
    if gax_play_offset + 0xf4 ≥ rom.length then some agbnullptr
    else
      match readInt8c rom (gax_play_offset + 2) with
      | none => none
      | some rel =>
        let offset : Nat := if rel = 0x30 then 0xc4 else if rel = 0x4c then 0x134 else 0xf0
        match readInt32Lc rom (gax_play_offset + offset) with
        | none => none
        | some ptr =>
          some (if is_ewramptr ptr || is_iwramptr ptr then ptr else agbnullptr)

/-- `GaxDriver::FindGaxWorkRamPointerV3` (lines 282-290); `none` marks an
out-of-bounds byte access as in `FindGaxWorkRamPointerV2`.  The pointer
arithmetic `gax_play + 0x124` wraps in the 32-bit `agbptr_t`. -/
def FindGaxWorkRamPointerV3 (rom : List Nat) (gax_play : Nat) : Option Nat :=
  if gax_play = agbnullptr then some agbnullptr
  else
    let offset := to_offset ((gax_play + 0x124) % 2 ^ 32)
    if offset + 4 ≥ rom.length then some agbnullptr
    else
      match readInt32Lc rom offset with
      | none => none
      | some ptr =>
        some (if is_ewramptr ptr || is_iwramptr ptr then ptr else agbnullptr)

/-- `GaxDriver::FindGaxWorkRamPointer` (lines 260-267). -/
def FindGaxWorkRamPointer (rom : List Nat) (version : GaxVersion) (gax_play : Nat) :
    Option Nat :=
  if version.major_version = 3 then FindGaxWorkRamPointerV3 rom gax_play
  else FindGaxWorkRamPointerV2 rom gax_play

/-- `GaxDriver::Inspect` (lines 22-35).  The work-RAM probe's out-of-bounds
case is undefined behaviour in the C++; the garbage it would read is
modelled as the null pointer (no claim depends on that value). -/
def Inspect (rom : List Nat) : GaxDriverParam :=
  let version_text := FindGaxVersionText rom 0
  let version := ParseVersionText version_text
  let gax2_estimate := FindGax2Estimate rom 0
  let code_offset := to_offset gax2_estimate
  let gax2_new := FindGax2New rom code_offset
  let gax2_init := FindGax2Init rom code_offset
  let gax_irq := FindGaxIrq rom code_offset
  let gax_play := FindGaxPlay rom code_offset
  let gax_wram_pointer := (FindGaxWorkRamPointer rom version gax_play).getD agbnullptr
  { version_text := version_text
    version := version
    gax2_estimate := gax2_estimate
    gax2_new := gax2_new
    gax2_init := gax2_init
    gax_irq := gax_irq
    gax_play := gax_play
    gax_wram_pointer := gax_wram_pointer
    songs := GaxMusicEntry.Scan rom version }

/-- Work-address resolution step of `GaxDriver::InstallGsfDriver` (lines
54-65): a null caller-supplied work address defaults to the fast-RAM base
`0x3000000`, shifted to just past the detected engine work pointer when
that pointer lives in the same region (`gax_ptr & ~0xFFFFFF`, i.e. the
high byte, equals the default) and is below `0x3004000`. -/
def resolveWorkAddress (work_address gax_ptr : Nat) : Nat :=
  if work_address = agbnullptr then
    if gax_ptr != agbnullptr && (gax_ptr &&& 0xFF000000) == 0x3000000 then
      if gax_ptr < 0x3004000 then gax_ptr + 4 else 0x3000000
    else 0x3000000
  else work_address

/-- Template-copy-and-patch stage of `GaxDriver::InstallGsfDriver` (lines
67-92): copy the template selected by the major version to `offset` and
patch the fixed slots (`work_address` is already resolved). -/
def installPatch (rom : List Nat) (offset work_address work_size : Nat)
    (param : GaxDriverParam) : List Nat :=
  if param.version.major_version = 3 then
    let rom := memcpyAt rom offset gax3_driver_block
    let rom := writeInt32L rom (offset + kGax2EstimateOffsetV3) (param.gax2_estimate ||| 1)
    let rom := writeInt32L rom (offset + kGax2NewOffsetV3) (param.gax2_new ||| 1)
    let rom := writeInt32L rom (offset + kGax2InitOffsetV3) (param.gax2_init ||| 1)
    let rom := writeInt32L rom (offset + kGaxIrqOffsetV3) (param.gax_irq ||| 1)
    let rom := writeInt32L rom (offset + kGaxPlayOffsetV3) (param.gax_play ||| 1)
    let rom := writeInt32L rom (offset + kMyWorkRamOffsetV3) work_address
    let sfx_offset : Nat := if param.version.minor_version ≥ 5 then 0x30 else 0x2c
    writeInt8 rom (offset + kGax2ParamFxImmOffsetV3) sfx_offset
  else
    let rom := memcpyAt rom offset gax2_driver_block
    let rom := writeInt32L rom (offset + kGax2NewOffsetV2) (param.gax2_new ||| 1)
    let rom := writeInt32L rom (offset + kGax2InitOffsetV2) (param.gax2_init ||| 1)
    let rom := writeInt32L rom (offset + kGaxIrqOffsetV2) (param.gax_irq ||| 1)
    let rom := writeInt32L rom (offset + kGaxPlayOffsetV2) (param.gax_play ||| 1)
    let rom := writeInt32L rom (offset + kMyWorkRamOffsetV2) work_address
    writeInt32L rom (offset + kMyWorkRamSizeOffsetV2) work_size

/-- `GaxDriver::InstallGsfDriver` (lines 37-95).  The C++ mutates `rom` in
place and throws on a failed precondition; the embedding returns the
patched image in `Except.ok` and the exception in `Except.error` (an error
leaves the caller's image untouched, no bytes having been written). -/
def InstallGsfDriver (rom : List Nat) (address work_address work_size : Nat)
    (param : GaxDriverParam) : Except DriverError (List Nat) :=
  if !is_romptr address then
    .error (.invalidArgument "The gsf driver address is not valid." [])
  else if !param.ok then
    .error (.invalidArgument "Identification of GAX Sound Engine is incomplete."
      (if param.version == ⟨0, 0⟩ then ["version"] else []))
  else if to_offset address + gsf_driver_size param.version > rom.length then
    .error (.outOfRange "The address of gsf driver block is out of range.")
  else
    .ok (writeInt32L
      (installPatch rom (to_offset address)
        (resolveWorkAddress work_address param.gax_wram_pointer) work_size param)
      0 (make_arm_b 0x8000000 address))

/-- `GaxDriver::NewMinigsfData` (lines 97-115). -/
def NewMinigsfData (param : GaxMinigsfDriverParam) : Except DriverError (List Nat) :=
  if !param.ok then
    .error (.invalidArgument "The parameters for creating minigsfs are not sufficient."
      (unsetMinigsfFields param))
  else
    let data := List.replicate kMinigsfParamSize 0
    let data := writeInt32L data kMinigsfParamMyMusicOffset param.song.address
    let data := writeInt32L data kMinigsfParamMyFxOffset
      (match param.fx with | some fx => fx.address | none => 0)
    let data := writeInt16L data kMinigsfParamMyFxIdOffset param.fxid
    let data := writeInt16L data kMinigsfParamMyFlagsOffset param.flags
    let data := writeInt16L data kMinigsfParamMyMixingRateOffset param.mixing_rate
    let data := writeInt16L data kMinigsfParamMyVolumeOffset param.volume
    .ok data

theorem getD_set_ne (l : List Nat) {i j : Nat} (h : i ≠ j) (v d : Nat) :
    (l.set i v).getD j d = l.getD j d := by
  simp [List.getD_eq_getElem?_getD, List.getElem?_set_ne h]

theorem getD_set_self (l : List Nat) {i : Nat} (h : i < l.length) (v d : Nat) :
    (l.set i v).getD i d = v := by
  simp [List.getD_eq_getElem?_getD, List.getElem?_set_self h]

theorem length_writeInt8 (l : List Nat) (i v : Nat) :
    (writeInt8 l i v).length = l.length := by
  simp [writeInt8]

theorem length_writeInt16L (l : List Nat) (i v : Nat) :
    (writeInt16L l i v).length = l.length := by
  simp [writeInt16L]

theorem length_writeInt32L (l : List Nat) (i v : Nat) :
    (writeInt32L l i v).length = l.length := by
  simp [writeInt32L]

theorem length_memcpyAt (l block : List Nat) {i : Nat}
    (h : i + block.length ≤ l.length) :
    (memcpyAt l i block).length = l.length := by
  simp [memcpyAt]
  omega

theorem getD_writeInt8_ne (l : List Nat) {i j : Nat} (h : j ≠ i) (v d : Nat) :
    (writeInt8 l i v).getD j d = l.getD j d := by
  unfold writeInt8
  exact getD_set_ne l (by omega) _ _

theorem getD_writeInt16L_ne (l : List Nat) {i j : Nat} (h : j < i ∨ i + 2 ≤ j)
    (v d : Nat) : (writeInt16L l i v).getD j d = l.getD j d := by
  unfold writeInt16L
  rw [getD_set_ne _ (by omega), getD_set_ne _ (by omega)]

theorem getD_writeInt32L_ne (l : List Nat) {i j : Nat} (h : j < i ∨ i + 4 ≤ j)
    (v d : Nat) : (writeInt32L l i v).getD j d = l.getD j d := by
  unfold writeInt32L
  rw [getD_set_ne _ (by omega), getD_set_ne _ (by omega),
    getD_set_ne _ (by omega), getD_set_ne _ (by omega)]

theorem readInt16L_writeInt16L_self (l : List Nat) {i : Nat}
    (h : i + 2 ≤ l.length) (v : Nat) :
    readInt16L (writeInt16L l i v) i = v % 2 ^ 16 := by
  unfold readInt16L writeInt16L
  rw [getD_set_ne _ (by omega), getD_set_self _ (by omega),
    getD_set_self _ (by simp only [List.length_set]; omega)]
  omega

theorem readInt32L_writeInt32L_self (l : List Nat) {i : Nat}
    (h : i + 4 ≤ l.length) (v : Nat) :
    readInt32L (writeInt32L l i v) i = v % 2 ^ 32 := by
  unfold readInt32L writeInt32L
  rw [getD_set_ne _ (by omega), getD_set_ne _ (by omega),
    getD_set_ne _ (by omega), getD_set_self _ (by omega),
    getD_set_ne _ (by omega), getD_set_ne _ (by omega),
    getD_set_self _ (by simp only [List.length_set]; omega),
    getD_set_ne _ (by omega),
    getD_set_self _ (by simp only [List.length_set]; omega),
    getD_set_self _ (by simp only [List.length_set]; omega)]
  omega

theorem readInt32L_congr {l₁ l₂ : List Nat} {i : Nat}
    (h : ∀ k, k < 4 → l₁.getD (i + k) 0 = l₂.getD (i + k) 0) :
    readInt32L l₁ i = readInt32L l₂ i := by
  unfold readInt32L
  have h0 := h 0 (by omega)
  have h1 := h 1 (by omega)
  have h2 := h 2 (by omega)
  have h3 := h 3 (by omega)
  simp only [Nat.add_zero] at h0
  rw [h0, h1, h2, h3]

theorem readInt32L_writeInt32L_skip (l : List Nat) {i j : Nat}
    (h : j + 4 ≤ i ∨ i + 4 ≤ j) (v : Nat) :
    readInt32L (writeInt32L l i v) j = readInt32L l j :=
  readInt32L_congr fun k hk => getD_writeInt32L_ne l (by omega) v 0

theorem readInt32L_writeInt8_skip (l : List Nat) {i j : Nat}
    (h : j + 4 ≤ i ∨ i + 1 ≤ j) (v : Nat) :
    readInt32L (writeInt8 l i v) j = readInt32L l j :=
  readInt32L_congr fun k hk => getD_writeInt8_ne l (by omega) v 0

theorem getD_memcpyAt_outside (l block : List Nat) {i j : Nat}
    (hj : j < i ∨ i + block.length ≤ j) (hle : i ≤ l.length) (d : Nat) :
    (memcpyAt l i block).getD j d = l.getD j d := by
  unfold memcpyAt
  have hti : (l.take i).length = i := by
    rw [List.length_take]
    omega
  have htb : (l.take i ++ block).length = i + block.length := by
    rw [List.length_append, hti]
  rcases hj with hj | hj
  · rw [List.getD_eq_getElem?_getD,
      List.getElem?_append_left (by rw [htb]; omega),
      List.getElem?_append_left (by rw [hti]; omega),
      List.getElem?_take, if_pos hj, ← List.getD_eq_getElem?_getD]
  · rw [List.getD_eq_getElem?_getD,
      List.getElem?_append_right (by rw [htb]; omega),
      List.getElem?_drop, htb, ← List.getD_eq_getElem?_getD]
    congr 1
    omega

theorem getD_memcpyAt_inside (l block : List Nat) {i j : Nat}
    (h1 : i ≤ j) (h2 : j < i + block.length) (hle : i ≤ l.length) (d : Nat) :
    (memcpyAt l i block).getD j d = block.getD (j - i) d := by
  unfold memcpyAt
  have hti : (l.take i).length = i := by
    rw [List.length_take]
    omega
  have htb : (l.take i ++ block).length = i + block.length := by
    rw [List.length_append, hti]
  rw [List.getD_eq_getElem?_getD,
    List.getElem?_append_left (by rw [htb]; omega),
    List.getElem?_append_right (by rw [hti]; omega), hti,
    ← List.getD_eq_getElem?_getD]

theorem matchesAt_length_le {rom pat : List Nat} {m : Nat} (hp : pat ≠ [])
    (h : matchesAt rom pat m = true) : m + pat.length ≤ rom.length := by
  unfold matchesAt at h
  have heq : (rom.drop m).take pat.length = pat := by
    exact beq_iff_eq.mp h
  have hlen := congrArg List.length heq
  rw [List.length_take, List.length_drop] at hlen
  have hpos : 0 < pat.length := List.length_pos.mpr hp
  omega

theorem strFindAux_some {rom pat : List Nat} :
    ∀ {fuel i n : Nat}, strFindAux rom pat i fuel = some n →
      i ≤ n ∧ matchesAt rom pat n = true ∧
        ∀ m, i ≤ m → m < n → matchesAt rom pat m = false := by
  intro fuel
  induction fuel with
  | zero =>
    intro i n h
    simp [strFindAux] at h
  | succ f ih =>
    intro i n h
    unfold strFindAux at h
    by_cases hm : matchesAt rom pat i
    · rw [if_pos hm] at h
      cases h
      exact ⟨Nat.le_refl _, hm, fun m h1 h2 => absurd h1 (by omega)⟩
    · rw [if_neg hm] at h
      obtain ⟨h1, h2, h3⟩ := ih h
      refine ⟨by omega, h2, fun m hm1 hm2 => ?_⟩
      rcases Nat.eq_or_lt_of_le hm1 with rfl | hlt
      · exact Bool.eq_false_iff.mpr hm
      · exact h3 m (by omega) hm2

theorem strFindAux_none {rom pat : List Nat} :
    ∀ {fuel i : Nat}, strFindAux rom pat i fuel = none →
      ∀ m, i ≤ m → m < i + fuel → matchesAt rom pat m = false := by
  intro fuel
  induction fuel with
  | zero =>
    intro i _ m h1 h2
    omega
  | succ f ih =>
    intro i h m h1 h2
    unfold strFindAux at h
    by_cases hm : matchesAt rom pat i
    · rw [if_pos hm] at h
      cases h
    · rw [if_neg hm] at h
      rcases Nat.eq_or_lt_of_le h1 with rfl | hlt
      · exact Bool.eq_false_iff.mpr hm
      · exact ih h m (by omega) (by omega)

theorem strFind_some {rom pat : List Nat} {offset n : Nat}
    (h : strFind rom pat offset = some n) :
    offset ≤ n ∧ matchesAt rom pat n = true ∧
      ∀ m, offset ≤ m → m < n → matchesAt rom pat m = false := by
  unfold strFind at h
  split_ifs at h with hoff
  exact strFindAux_some h

theorem strFind_none {rom pat : List Nat} {offset : Nat} (hp : pat ≠ [])
    (h : strFind rom pat offset = none) :
    ∀ m, offset ≤ m → matchesAt rom pat m = false := by
  intro m hm
  by_cases hmatch : matchesAt rom pat m = true
  · exfalso
    have hlen := matchesAt_length_le hp hmatch
    have hpos : 0 < pat.length := List.length_pos.mpr hp
    unfold strFind at h
    split_ifs at h with hoff
    · have := strFindAux_none h m hm (by omega)
      rw [this] at hmatch
      cases hmatch
    · omega
  · exact Bool.eq_false_iff.mpr hmatch

theorem to_romptr_ne_nullptr (n : Nat) : to_romptr n ≠ agbnullptr := by
  unfold to_romptr agbnullptr
  omega

theorem to_offset_to_romptr {n : Nat} (h : n < 0x2000000) :
    to_offset (to_romptr n) = n := by
  unfold to_offset to_romptr
  omega

theorem find_pattern_cases (patterns : List (List Nat)) (rom : List Nat)
    (offset : Nat) (hne : ∀ p ∈ patterns, p ≠ []) :
    (find_pattern patterns rom offset = agbnullptr ∧
       ∀ p ∈ patterns, ∀ n, offset ≤ n → matchesAt rom p n = false) ∨
    (∃ ps₁ p ps₂ n, patterns = ps₁ ++ p :: ps₂ ∧ offset ≤ n ∧
       matchesAt rom p n = true ∧
       (∀ m, offset ≤ m → m < n → matchesAt rom p m = false) ∧
       (∀ q ∈ ps₁, ∀ m, offset ≤ m → matchesAt rom q m = false) ∧
       find_pattern patterns rom offset = to_romptr (n % 2 ^ 32)) := by
  induction patterns with
  | nil =>
    left
    exact ⟨rfl, by simp⟩
  | cons p rest ih =>
    cases hf : strFind rom p offset with
    | some n =>
      right
      obtain ⟨h1, h2, h3⟩ := strFind_some hf
      exact ⟨[], p, rest, n, rfl, h1, h2, h3, by simp,
        by simp [find_pattern, hf]⟩
    | none =>
      have hpne : p ≠ [] := hne p (by simp)
      have hnone := strFind_none hpne hf
      have hrest : ∀ q ∈ rest, q ≠ [] := fun q hq => hne q (by simp [hq])
      rcases ih hrest with ⟨hn, hall⟩ | ⟨ps₁, q, ps₂, n, heq, h1, h2, h3, h4, h5⟩
      · left
        refine ⟨by simp [find_pattern, hf, hn], ?_⟩
        intro q hq m hm
        rcases List.mem_cons.mp hq with rfl | hq'
        · exact hnone m hm
        · exact hall q hq' m hm
      · right
        refine ⟨p :: ps₁, q, ps₂, n, by rw [heq, List.cons_append], h1, h2, h3, ?_, ?_⟩
        · intro q' hq' m hm
          rcases List.mem_cons.mp hq' with rfl | hq''
          · exact hnone m hm
          · exact h4 q' hq'' m hm
        · simp [find_pattern, hf, h5]

theorem find_pattern_ne_null (patterns : List (List Nat)) (rom : List Nat)
    (offset : Nat) (hne : ∀ p ∈ patterns, p ≠ [])
    (h : find_pattern patterns rom offset ≠ agbnullptr) :
    ∃ n, offset ≤ n ∧ n < rom.length ∧
      find_pattern patterns rom offset = to_romptr (n % 2 ^ 32) := by
  rcases find_pattern_cases patterns rom offset hne with ⟨h0, _⟩ |
    ⟨ps₁, p, ps₂, n, heq, h1, h2, _, _, h5⟩
  · exact absurd h0 h
  · have hpmem : p ∈ patterns := by
      rw [heq]
      simp
    have hple := matchesAt_length_le (hne p hpmem) h2
    have hpos : 0 < p.length := List.length_pos.mpr (hne p hpmem)
    exact ⟨n, h1, by omega, h5⟩

theorem installPatch_eq_v3 {rom : List Nat} {offset wa ws : Nat}
    {param : GaxDriverParam} (h3 : param.version.major_version = 3) :
    installPatch rom offset wa ws param =
      writeInt8
        (writeInt32L
          (writeInt32L
            (writeInt32L
              (writeInt32L
                (writeInt32L
                  (writeInt32L (memcpyAt rom offset gax3_driver_block)
                    (offset + kGax2EstimateOffsetV3) (param.gax2_estimate ||| 1))
                  (offset + kGax2NewOffsetV3) (param.gax2_new ||| 1))
                (offset + kGax2InitOffsetV3) (param.gax2_init ||| 1))
              (offset + kGaxIrqOffsetV3) (param.gax_irq ||| 1))
            (offset + kGaxPlayOffsetV3) (param.gax_play ||| 1))
          (offset + kMyWorkRamOffsetV3) wa)
        (offset + kGax2ParamFxImmOffsetV3)
        (if param.version.minor_version ≥ 5 then 0x30 else 0x2c) := by
  unfold installPatch
  rw [if_pos h3]

theorem installPatch_eq_v2 {rom : List Nat} {offset wa ws : Nat}
    {param : GaxDriverParam} (h3 : ¬param.version.major_version = 3) :
    installPatch rom offset wa ws param =
      writeInt32L
        (writeInt32L
          (writeInt32L
            (writeInt32L
              (writeInt32L
                (writeInt32L (memcpyAt rom offset gax2_driver_block)
                  (offset + kGax2NewOffsetV2) (param.gax2_new ||| 1))
                (offset + kGax2InitOffsetV2) (param.gax2_init ||| 1))
              (offset + kGaxIrqOffsetV2) (param.gax_irq ||| 1))
            (offset + kGaxPlayOffsetV2) (param.gax_play ||| 1))
          (offset + kMyWorkRamOffsetV2) wa)
        (offset + kMyWorkRamSizeOffsetV2) ws := by
  unfold installPatch
  rw [if_neg h3]

theorem length_installPatch {rom : List Nat} {offset wa ws : Nat}
    {param : GaxDriverParam}
    (hfit : offset + gsf_driver_size param.version ≤ rom.length) :
    (installPatch rom offset wa ws param).length = rom.length := by
  unfold gsf_driver_size at hfit
  by_cases h3 : param.version.major_version = 3
  · rw [if_pos h3] at hfit
    rw [installPatch_eq_v3 h3]
    simp only [length_writeInt8, length_writeInt32L]
    exact length_memcpyAt _ _ hfit
  · rw [if_neg h3] at hfit
    rw [installPatch_eq_v2 h3]
    simp only [length_writeInt32L]
    exact length_memcpyAt _ _ hfit

theorem getD_installPatch_outside {rom : List Nat} {offset wa ws j : Nat}
    {param : GaxDriverParam}
    (hfit : offset + gsf_driver_size param.version ≤ rom.length)
    (hj : j < offset ∨ offset + gsf_driver_size param.version ≤ j) :
    (installPatch rom offset wa ws param).getD j 0 = rom.getD j 0 := by
  unfold gsf_driver_size at hfit hj
  by_cases h3 : param.version.major_version = 3
  · rw [if_pos h3] at hfit hj
    have hfit' : offset + 48 ≤ rom.length := by
      simpa [gax3_driver_block] using hfit
    have hj' : j < offset ∨ offset + 48 ≤ j := by
      simpa [gax3_driver_block] using hj
    rw [installPatch_eq_v3 h3]
    simp only [kGax2EstimateOffsetV3, kGax2NewOffsetV3, kGax2InitOffsetV3,
      kGaxIrqOffsetV3, kGaxPlayOffsetV3, kMyWorkRamOffsetV3,
      kGax2ParamFxImmOffsetV3]
    rw [getD_writeInt8_ne _ (by omega), getD_writeInt32L_ne _ (by omega),
      getD_writeInt32L_ne _ (by omega), getD_writeInt32L_ne _ (by omega),
      getD_writeInt32L_ne _ (by omega), getD_writeInt32L_ne _ (by omega),
      getD_writeInt32L_ne _ (by omega)]
    exact getD_memcpyAt_outside _ _
      (by simp only [gax3_driver_block, List.length_replicate]; omega)
      (by omega) 0
  · rw [if_neg h3] at hfit hj
    have hfit' : offset + 40 ≤ rom.length := by
      simpa [gax2_driver_block] using hfit
    have hj' : j < offset ∨ offset + 40 ≤ j := by
      simpa [gax2_driver_block] using hj
    rw [installPatch_eq_v2 h3]
    simp only [kGax2NewOffsetV2, kGax2InitOffsetV2, kGaxIrqOffsetV2,
      kGaxPlayOffsetV2, kMyWorkRamOffsetV2, kMyWorkRamSizeOffsetV2]
    rw [getD_writeInt32L_ne _ (by omega), getD_writeInt32L_ne _ (by omega),
      getD_writeInt32L_ne _ (by omega), getD_writeInt32L_ne _ (by omega),
      getD_writeInt32L_ne _ (by omega), getD_writeInt32L_ne _ (by omega)]
    exact getD_memcpyAt_outside _ _
      (by simp only [gax2_driver_block, List.length_replicate]; omega)
      (by omega) 0

theorem installPatch_v3_read {rom : List Nat} {offset wa ws : Nat}
    {param : GaxDriverParam} (h3 : param.version.major_version = 3)
    (hfit : offset + gsf_driver_size param.version ≤ rom.length) :
    readInt32L (installPatch rom offset wa ws param) (offset + kGax2EstimateOffsetV3) =
        (param.gax2_estimate ||| 1) % 2 ^ 32 ∧
      readInt32L (installPatch rom offset wa ws param) (offset + kGax2NewOffsetV3) =
        (param.gax2_new ||| 1) % 2 ^ 32 ∧
      readInt32L (installPatch rom offset wa ws param) (offset + kGax2InitOffsetV3) =
        (param.gax2_init ||| 1) % 2 ^ 32 ∧
      readInt32L (installPatch rom offset wa ws param) (offset + kGaxIrqOffsetV3) =
        (param.gax_irq ||| 1) % 2 ^ 32 ∧
      readInt32L (installPatch rom offset wa ws param) (offset + kGaxPlayOffsetV3) =
        (param.gax_play ||| 1) % 2 ^ 32 ∧
      readInt32L (installPatch rom offset wa ws param) (offset + kMyWorkRamOffsetV3) =
        wa % 2 ^ 32 := by
  unfold gsf_driver_size at hfit
  rw [if_pos h3] at hfit
  have hfit' : offset + 48 ≤ rom.length := by
    simpa [gax3_driver_block] using hfit
  have hlen : (memcpyAt rom offset gax3_driver_block).length = rom.length :=
    length_memcpyAt _ _ hfit
  rw [installPatch_eq_v3 h3]
  simp only [kGax2EstimateOffsetV3, kGax2NewOffsetV3, kGax2InitOffsetV3,
    kGaxIrqOffsetV3, kGaxPlayOffsetV3, kMyWorkRamOffsetV3,
    kGax2ParamFxImmOffsetV3]
  refine ⟨?_, ?_, ?_, ?_, ?_, ?_⟩
  · rw [readInt32L_writeInt8_skip _ (by omega),
      readInt32L_writeInt32L_skip _ (by omega),
      readInt32L_writeInt32L_skip _ (by omega),
      readInt32L_writeInt32L_skip _ (by omega),
      readInt32L_writeInt32L_skip _ (by omega),
      readInt32L_writeInt32L_skip _ (by omega)]
    exact readInt32L_writeInt32L_self _ (by rw [hlen]; omega) _
  · rw [readInt32L_writeInt8_skip _ (by omega),
      readInt32L_writeInt32L_skip _ (by omega),
      readInt32L_writeInt32L_skip _ (by omega),
      readInt32L_writeInt32L_skip _ (by omega),
      readInt32L_writeInt32L_skip _ (by omega)]
    exact readInt32L_writeInt32L_self _
      (by simp only [length_writeInt32L]; rw [hlen]; omega) _
  · rw [readInt32L_writeInt8_skip _ (by omega),
      readInt32L_writeInt32L_skip _ (by omega),
      readInt32L_writeInt32L_skip _ (by omega),
      readInt32L_writeInt32L_skip _ (by omega)]
    exact readInt32L_writeInt32L_self _
      (by simp only [length_writeInt32L]; rw [hlen]; omega) _
  · rw [readInt32L_writeInt8_skip _ (by omega),
      readInt32L_writeInt32L_skip _ (by omega),
      readInt32L_writeInt32L_skip _ (by omega)]
    exact readInt32L_writeInt32L_self _
      (by simp only [length_writeInt32L]; rw [hlen]; omega) _
  · rw [readInt32L_writeInt8_skip _ (by omega),
      readInt32L_writeInt32L_skip _ (by omega)]
    exact readInt32L_writeInt32L_self _
      (by simp only [length_writeInt32L]; rw [hlen]; omega) _
  · rw [readInt32L_writeInt8_skip _ (by omega)]
    exact readInt32L_writeInt32L_self _
      (by simp only [length_writeInt32L]; rw [hlen]; omega) _

theorem installPatch_v2_read {rom : List Nat} {offset wa ws : Nat}
    {param : GaxDriverParam} (h3 : ¬param.version.major_version = 3)
    (hfit : offset + gsf_driver_size param.version ≤ rom.length) :
    readInt32L (installPatch rom offset wa ws param) (offset + kGax2NewOffsetV2) =
        (param.gax2_new ||| 1) % 2 ^ 32 ∧
      readInt32L (installPatch rom offset wa ws param) (offset + kGax2InitOffsetV2) =
        (param.gax2_init ||| 1) % 2 ^ 32 ∧
      readInt32L (installPatch rom offset wa ws param) (offset + kGaxIrqOffsetV2) =
        (param.gax_irq ||| 1) % 2 ^ 32 ∧
      readInt32L (installPatch rom offset wa ws param) (offset + kGaxPlayOffsetV2) =
        (param.gax_play ||| 1) % 2 ^ 32 ∧
      readInt32L (installPatch rom offset wa ws param) (offset + kMyWorkRamOffsetV2) =
        wa % 2 ^ 32 := by
  unfold gsf_driver_size at hfit
  rw [if_neg h3] at hfit
  have hfit' : offset + 40 ≤ rom.length := by
    simpa [gax2_driver_block] using hfit
  have hlen : (memcpyAt rom offset gax2_driver_block).length = rom.length :=
    length_memcpyAt _ _ hfit
  rw [installPatch_eq_v2 h3]
  simp only [kGax2NewOffsetV2, kGax2InitOffsetV2, kGaxIrqOffsetV2,
    kGaxPlayOffsetV2, kMyWorkRamOffsetV2, kMyWorkRamSizeOffsetV2]
  refine ⟨?_, ?_, ?_, ?_, ?_⟩
  · rw [readInt32L_writeInt32L_skip _ (by omega),
      readInt32L_writeInt32L_skip _ (by omega),
      readInt32L_writeInt32L_skip _ (by omega),
      readInt32L_writeInt32L_skip _ (by omega),
      readInt32L_writeInt32L_skip _ (by omega)]
    exact readInt32L_writeInt32L_self _ (by rw [hlen]; omega) _
  · rw [readInt32L_writeInt32L_skip _ (by omega),
      readInt32L_writeInt32L_skip _ (by omega),
      readInt32L_writeInt32L_skip _ (by omega),
      readInt32L_writeInt32L_skip _ (by omega)]
    exact readInt32L_writeInt32L_self _
      (by simp only [length_writeInt32L]; rw [hlen]; omega) _
  · rw [readInt32L_writeInt32L_skip _ (by omega),
      readInt32L_writeInt32L_skip _ (by omega),
      readInt32L_writeInt32L_skip _ (by omega)]
    exact readInt32L_writeInt32L_self _
      (by simp only [length_writeInt32L]; rw [hlen]; omega) _
  · rw [readInt32L_writeInt32L_skip _ (by omega),
      readInt32L_writeInt32L_skip _ (by omega)]
    exact readInt32L_writeInt32L_self _
      (by simp only [length_writeInt32L]; rw [hlen]; omega) _
  · rw [readInt32L_writeInt32L_skip _ (by omega)]
    exact readInt32L_writeInt32L_self _
      (by simp only [length_writeInt32L]; rw [hlen]; omega) _

theorem install_ok_elim {rom : List Nat} {address work_address work_size : Nat}
    {param : GaxDriverParam} {rom' : List Nat}
    (h : InstallGsfDriver rom address work_address work_size param = .ok rom') :
    is_romptr address = true ∧ param.ok = true ∧
      to_offset address + gsf_driver_size param.version ≤ rom.length ∧
      rom' = writeInt32L
        (installPatch rom (to_offset address)
          (resolveWorkAddress work_address param.gax_wram_pointer) work_size param)
        0 (make_arm_b 0x8000000 address) := by
  unfold InstallGsfDriver at h
  split_ifs at h with h1 h2 h3
  any_goals cases h
  refine ⟨by simpa using h1, by simpa using h2, by omega, rfl⟩

theorem make_arm_b_lt (source target : Nat) : make_arm_b source target < 2 ^ 32 := by
  unfold make_arm_b
  omega

theorem or_one_mod_two (x : Nat) : (x ||| 1) % 2 = 1 := by
  have ht : (x ||| 1).testBit 0 = true := by
    rw [Nat.testBit_or]
    simp
  rw [Nat.testBit_zero] at ht
  simp only [decide_eq_true_eq] at ht
  exact ht

theorem readInt16L_congr {l₁ l₂ : List Nat} {i : Nat}
    (h : ∀ k, k < 2 → l₁.getD (i + k) 0 = l₂.getD (i + k) 0) :
    readInt16L l₁ i = readInt16L l₂ i := by
  unfold readInt16L
  have h0 := h 0 (by omega)
  have h1 := h 1 (by omega)
  simp only [Nat.add_zero] at h0
  rw [h0, h1]

theorem readInt16L_writeInt16L_skip (l : List Nat) {i j : Nat}
    (h : j + 2 ≤ i ∨ i + 2 ≤ j) (v : Nat) :
    readInt16L (writeInt16L l i v) j = readInt16L l j :=
  readInt16L_congr fun k hk => getD_writeInt16L_ne l (by omega) v 0

theorem readInt16L_writeInt32L_skip (l : List Nat) {i j : Nat}
    (h : j + 2 ≤ i ∨ i + 4 ≤ j) (v : Nat) :
    readInt16L (writeInt32L l i v) j = readInt16L l j :=
  readInt16L_congr fun k hk => getD_writeInt32L_ne l (by omega) v 0

theorem readInt32L_writeInt16L_skip (l : List Nat) {i j : Nat}
    (h : j + 4 ≤ i ∨ i + 2 ≤ j) (v : Nat) :
    readInt32L (writeInt16L l i v) j = readInt32L l j :=
  readInt32L_congr fun k hk => getD_writeInt16L_ne l (by omega) v 0

theorem getD_replicate_zero (n i : Nat) :
    (List.replicate n (0 : Nat)).getD i 0 = 0 := by
  rw [List.getD_eq_getElem?_getD, List.getElem?_replicate]
  split_ifs <;> rfl

theorem resolveWorkAddress_lt (gax_ptr : Nat) :
    resolveWorkAddress agbnullptr gax_ptr < 2 ^ 32 := by
  unfold resolveWorkAddress agbnullptr
  split_ifs with h1 h2 h3 <;> omega

/-- C2: `InstallGsfDriver` raises invalid-argument for a non-ROM target
address or an incomplete record, raises out-of-range when the target offset
plus the version's template size exceeds the image length, and fails in no
other case; on failure nothing has been written (the embedding returns
`Except.error` without producing an image, mirroring the C++ code's checks
all preceding the first mutation, so the caller's bytes are untouched). -/
theorem C2_precondition_gating :
    ∀ (rom : List Nat) (address work_address work_size : Nat)
      (param : GaxDriverParam),
      (is_romptr address = false →
        InstallGsfDriver rom address work_address work_size param =
          .error (.invalidArgument "The gsf driver address is not valid." [])) ∧
      (is_romptr address = true → param.ok = false →
        ∃ table, InstallGsfDriver rom address work_address work_size param =
          .error (.invalidArgument
            "Identification of GAX Sound Engine is incomplete." table)) ∧
      (is_romptr address = true → param.ok = true →
        rom.length < to_offset address + gsf_driver_size param.version →
        InstallGsfDriver rom address work_address work_size param =
          .error (.outOfRange "The address of gsf driver block is out of range.")) ∧
      (∀ e, InstallGsfDriver rom address work_address work_size param = .error e →
        is_romptr address = false ∨ param.ok = false ∨
          rom.length < to_offset address + gsf_driver_size param.version) := by
  intro rom address work_address work_size param
  refine ⟨?_, ?_, ?_, ?_⟩
  · intro h
    unfold InstallGsfDriver
    rw [if_pos (by simp [h])]
  · intro h1 h2
    refine ⟨if param.version == ⟨0, 0⟩ then ["version"] else [], ?_⟩
    unfold InstallGsfDriver
    rw [if_neg (by simp [h1]), if_pos (by simp [h2])]
  · intro h1 h2 h3
    unfold InstallGsfDriver
    rw [if_neg (by simp [h1]), if_neg (by simp [h2]), if_pos (by omega)]
  · intro e he
    by_contra hc
    push_neg at hc
    obtain ⟨hc1, hc2, hc3⟩ := hc
    rw [Bool.ne_false_iff] at hc1 hc2
    unfold InstallGsfDriver at he
    rw [if_neg (by simp [hc1]), if_neg (by simp [hc2]), if_neg (by omega)] at he
    cases he

/-- C2 witness: a concrete non-ROM target address is rejected with
invalid-argument. -/
theorem C2_precondition_gating_witness :
    InstallGsfDriver [] 0x3000000 0 0
        { version_text := [], version := ⟨3, 5⟩, gax2_estimate := 1,
          gax2_new := 1, gax2_init := 1, gax_irq := 1, gax_play := 1,
          gax_wram_pointer := 0, songs := [] } =
      .error (.invalidArgument "The gsf driver address is not valid." []) :=
  (C2_precondition_gating [] 0x3000000 0 0
    { version_text := [], version := ⟨3, 5⟩, gax2_estimate := 1,
      gax2_new := 1, gax2_init := 1, gax_irq := 1, gax_play := 1,
      gax_wram_pointer := 0, songs := [] }).1 (by decide)

/-- C3: with a null caller-supplied work address, the address written into
the template's work slot is the resolved work address: the fast-RAM default
`0x3000000`, except that a non-null detected work-RAM pointer with high
byte `0x03` (the default's region) lying strictly below `0x3004000` shifts
it to the detected pointer plus 4; a pointer in another region or at or
above the bound leaves the default unmodified. -/
theorem C3_work_address_resolution :
    ∀ (rom : List Nat) (address work_size : Nat) (param : GaxDriverParam)
      (rom' : List Nat),
      InstallGsfDriver rom address agbnullptr work_size param = .ok rom' →
      readInt32L rom' (to_offset address +
          (if param.version.major_version = 3 then kMyWorkRamOffsetV3
           else kMyWorkRamOffsetV2)) =
        resolveWorkAddress agbnullptr param.gax_wram_pointer ∧
      (param.gax_wram_pointer = agbnullptr →
        resolveWorkAddress agbnullptr param.gax_wram_pointer = 0x3000000) ∧
      (param.gax_wram_pointer ≠ agbnullptr →
        param.gax_wram_pointer &&& 0xFF000000 = 0x3000000 →
        param.gax_wram_pointer < 0x3004000 →
        resolveWorkAddress agbnullptr param.gax_wram_pointer =
          param.gax_wram_pointer + 4) ∧
      (param.gax_wram_pointer &&& 0xFF000000 ≠ 0x3000000 →
        resolveWorkAddress agbnullptr param.gax_wram_pointer = 0x3000000) ∧
      (0x3004000 ≤ param.gax_wram_pointer →
        resolveWorkAddress agbnullptr param.gax_wram_pointer = 0x3000000) := by
  intro rom address work_size param rom' h
  obtain ⟨h1, h2, hfit, heq⟩ := install_ok_elim h
  have hlt := resolveWorkAddress_lt param.gax_wram_pointer
  refine ⟨?_, ?_, ?_, ?_, ?_⟩
  · subst heq
    by_cases h3 : param.version.major_version = 3
    · rw [if_pos h3,
        readInt32L_writeInt32L_skip _
          (by simp only [kMyWorkRamOffsetV3]; omega) _,
        (installPatch_v3_read h3 hfit).2.2.2.2.2, Nat.mod_eq_of_lt hlt]
    · rw [if_neg h3,
        readInt32L_writeInt32L_skip _
          (by simp only [kMyWorkRamOffsetV2]; omega) _,
        (installPatch_v2_read h3 hfit).2.2.2.2, Nat.mod_eq_of_lt hlt]
  · intro hnull
    unfold resolveWorkAddress
    rw [if_pos rfl, if_neg (by simp [hnull])]
  · intro hnn hhi hlo
    unfold resolveWorkAddress
    rw [if_pos rfl, if_pos (by simp [bne_iff_ne, hnn, hhi]), if_pos hlo]
  · intro hhi
    unfold resolveWorkAddress
    rw [if_pos rfl, if_neg (by simp [hhi])]
  · intro hge
    unfold resolveWorkAddress
    rw [if_pos rfl]
    split_ifs with hcond hlo
    · omega
    · rfl
    · rfl

/-- Concrete image for the C3 witness: 96 zero bytes. -/
def romC3 : List Nat := List.replicate 96 0

/-- Concrete complete identification record for the C3 witness, with a
detected work-RAM pointer in the default fast-RAM region below the bound. -/
def paramC3 : GaxDriverParam :=
  { version_text := [], version := ⟨3, 5⟩, gax2_estimate := 0x8000100,
    gax2_new := 0x8000200, gax2_init := 0x8000300, gax_irq := 0x8000400,
    gax_play := 0x8000500, gax_wram_pointer := 0x3000010, songs := [] }

/-- Image produced by the C3 witness installation. -/
def romC3' : List Nat :=
  (InstallGsfDriver romC3 0x8000010 agbnullptr 0 paramC3).toOption.getD []

/-- C3 witness: a concrete successful install with a null caller work
address; the work slot holds the detected pointer plus 4. -/
theorem C3_work_address_resolution_witness :
    readInt32L romC3' (to_offset 0x8000010 +
        (if paramC3.version.major_version = 3 then kMyWorkRamOffsetV3
         else kMyWorkRamOffsetV2)) =
      resolveWorkAddress agbnullptr paramC3.gax_wram_pointer ∧
    resolveWorkAddress agbnullptr paramC3.gax_wram_pointer =
      paramC3.gax_wram_pointer + 4 := by
  have h : InstallGsfDriver romC3 0x8000010 agbnullptr 0 paramC3 = .ok romC3' := by
    rfl
  exact ⟨(C3_work_address_resolution romC3 0x8000010 0 paramC3 romC3' h).1,
    (C3_work_address_resolution romC3 0x8000010 0 paramC3 romC3' h).2.2.1
      (by decide) (by decide) (by decide)⟩

/-- Concrete image on which the version-2 work-RAM probe reads out of
bounds: 256 bytes, with byte 2 equal to `0x4c` (the GAX 2.1 `gax_play`
shape), so the probe reads 4 bytes at offset `0x134` though the guard only
ensured `0xf5` bytes. -/
def oobRom : List Nat := [0, 0, 0x4c] ++ List.replicate 253 0

set_option maxRecDepth 4000 in
/-- C5: the claim that the work-RAM probes only read in-bounds bytes fails
on `FindGaxWorkRamPointerV2`: for `gax_play = 0x8000000` on a 256-byte
image whose byte 2 is `0x4c`, the guard `gax_play_offset + 0xf4 >=
rom.size()` passes, yet the probe then reads the 4 bytes at offset
`0x134`, past the end of the image (`none` marks the out-of-bounds access
in the embedding). -/
theorem C5_workram_probe_out_of_bounds :
    FindGaxWorkRamPointerV2 oobRom 0x8000000 = none ∧
    ¬to_offset 0x8000000 + 0xf4 ≥ oobRom.length ∧
    oobRom.length < to_offset 0x8000000 + 0x134 + 4 := by
  decide

/-- C7: `NewMinigsfData` on a complete parameter set yields exactly the
fixed 20-byte block with the track address (4 bytes at 0), the effect
address or zero (4 bytes at 4), the effect id, flags, mixing rate and
volume (2 bytes each at 8, 10, 12, 14), all little-endian, the remaining
bytes zero, so each field reads back exactly; on an incomplete set it
raises invalid-argument with the table of unset fields and produces no
block.  The numeric preconditions are the 32/16-bit ranges of the C++
field types. -/
theorem C7_minigsf_serialization :
    ∀ param : GaxMinigsfDriverParam,
      param.song.address < 2 ^ 32 →
      (match param.fx with | some fx => fx.address | none => 0) < 2 ^ 32 →
      param.fxid < 2 ^ 16 → param.flags < 2 ^ 16 →
      param.mixing_rate < 2 ^ 16 → param.volume < 2 ^ 16 →
      (param.ok = true →
        ∃ data, NewMinigsfData param = .ok data ∧
          data.length = kMinigsfParamSize ∧
          readInt32L data kMinigsfParamMyMusicOffset = param.song.address ∧
          readInt32L data kMinigsfParamMyFxOffset =
            (match param.fx with | some fx => fx.address | none => 0) ∧
          readInt16L data kMinigsfParamMyFxIdOffset = param.fxid ∧
          readInt16L data kMinigsfParamMyFlagsOffset = param.flags ∧
          readInt16L data kMinigsfParamMyMixingRateOffset = param.mixing_rate ∧
          readInt16L data kMinigsfParamMyVolumeOffset = param.volume ∧
          ∀ i, 16 ≤ i → i < kMinigsfParamSize → data.getD i 0 = 0) ∧
      (param.ok = false →
        NewMinigsfData param =
          .error (.invalidArgument
            "The parameters for creating minigsfs are not sufficient."
            (unsetMinigsfFields param)) ∧
        unsetMinigsfFields param = ["song"]) := by
  intro param hsong hfx hfxid hflags hrate hvol
  constructor
  · intro hok
    unfold NewMinigsfData
    rw [if_neg (by simp [hok])]
    simp only [kMinigsfParamSize, kMinigsfParamMyMusicOffset,
      kMinigsfParamMyFxOffset, kMinigsfParamMyFxIdOffset,
      kMinigsfParamMyFlagsOffset, kMinigsfParamMyMixingRateOffset,
      kMinigsfParamMyVolumeOffset]
    refine ⟨_, rfl, ?_, ?_, ?_, ?_, ?_, ?_, ?_, ?_⟩
    · simp [length_writeInt16L, length_writeInt32L]
    · rw [readInt32L_writeInt16L_skip _ (by omega),
        readInt32L_writeInt16L_skip _ (by omega),
        readInt32L_writeInt16L_skip _ (by omega),
        readInt32L_writeInt16L_skip _ (by omega),
        readInt32L_writeInt32L_skip _ (by omega),
        readInt32L_writeInt32L_self _ (by simp) _]
      exact Nat.mod_eq_of_lt hsong
    · rw [readInt32L_writeInt16L_skip _ (by omega),
        readInt32L_writeInt16L_skip _ (by omega),
        readInt32L_writeInt16L_skip _ (by omega),
        readInt32L_writeInt16L_skip _ (by omega),
        readInt32L_writeInt32L_self _
          (by simp [length_writeInt32L]) _]
      exact Nat.mod_eq_of_lt hfx
    · rw [readInt16L_writeInt16L_skip _ (by omega),
        readInt16L_writeInt16L_skip _ (by omega),
        readInt16L_writeInt16L_skip _ (by omega),
        readInt16L_writeInt16L_self _
          (by simp [length_writeInt16L, length_writeInt32L]) _]
      exact Nat.mod_eq_of_lt hfxid
    · rw [readInt16L_writeInt16L_skip _ (by omega),
        readInt16L_writeInt16L_skip _ (by omega),
        readInt16L_writeInt16L_self _
          (by simp [length_writeInt16L, length_writeInt32L]) _]
      exact Nat.mod_eq_of_lt hflags
    · rw [readInt16L_writeInt16L_skip _ (by omega),
        readInt16L_writeInt16L_self _
          (by simp [length_writeInt16L, length_writeInt32L]) _]
      exact Nat.mod_eq_of_lt hrate
    · rw [readInt16L_writeInt16L_self _
        (by simp [length_writeInt16L, length_writeInt32L]) _]
      exact Nat.mod_eq_of_lt hvol
    · intro i h16 h20
      rw [getD_writeInt16L_ne _ (by omega), getD_writeInt16L_ne _ (by omega),
        getD_writeInt16L_ne _ (by omega), getD_writeInt16L_ne _ (by omega),
        getD_writeInt32L_ne _ (by omega), getD_writeInt32L_ne _ (by omega)]
      exact getD_replicate_zero 20 i
  · intro hok
    have haddr : param.song.address = agbnullptr := by
      have := hok
      unfold GaxMinigsfDriverParam.ok at this
      simpa [agbnullptr] using this
    constructor
    · unfold NewMinigsfData
      rw [if_pos (by simp [hok])]
    · unfold unsetMinigsfFields
      rw [if_pos haddr]

/-- Concrete complete track-parameter set for the C7 witness. -/
def paramC7 : GaxMinigsfDriverParam :=
  { song := ⟨0x8123456⟩, fx := some ⟨0x89ABCDE⟩, fxid := 3, flags := 0xBEEF,
    mixing_rate := 15768, volume := 256 }

/-- C7 witness: the serialized block of a concrete complete parameter set
reproduces every field. -/
theorem C7_minigsf_serialization_witness :
    ∃ data, NewMinigsfData paramC7 = .ok data ∧
      data.length = kMinigsfParamSize ∧
      readInt32L data kMinigsfParamMyMusicOffset = paramC7.song.address ∧
      readInt32L data kMinigsfParamMyFxOffset =
        (match paramC7.fx with | some fx => fx.address | none => 0) ∧
      readInt16L data kMinigsfParamMyFxIdOffset = paramC7.fxid ∧
      readInt16L data kMinigsfParamMyFlagsOffset = paramC7.flags ∧
      readInt16L data kMinigsfParamMyMixingRateOffset = paramC7.mixing_rate ∧
      readInt16L data kMinigsfParamMyVolumeOffset = paramC7.volume ∧
      ∀ i, 16 ≤ i → i < kMinigsfParamSize → data.getD i 0 = 0 :=
  (C7_minigsf_serialization paramC7 (by decide) (by decide) (by decide)
    (by decide) (by decide) (by decide)).1 (by decide)

/-- C8: `ParseVersionText` is total (never throws); any text shorter than
the marker yields the unknown version; the character immediately after the
marker is skipped when it is `v` or `V` before the digits and dots are
parsed; the marker followed by `"v3.05"` and a null byte parses to major 3,
minor 5, and the bare marker with nothing after it parses to the unknown
version. -/
theorem C8_parse_version_text :
    (∀ text : List Nat, text.length < versionTextMarker.length →
      ParseVersionText text = ⟨0, 0⟩) ∧
    ParseVersionText (versionTextMarker ++ [118, 51, 46, 48, 53, 0]) = ⟨3, 5⟩ ∧
    ParseVersionText (versionTextMarker ++ [86, 51, 46, 48, 53, 0]) = ⟨3, 5⟩ ∧
    ParseVersionText versionTextMarker = ⟨0, 0⟩ := by
  refine ⟨?_, by decide, by decide, by decide⟩
  intro text h
  have hm : versionTextMarker.length = 17 := by decide
  unfold ParseVersionText
  rw [if_pos (by omega)]

/-- C8 witness: the empty text parses to the unknown version. -/
theorem C8_parse_version_text_witness : ParseVersionText [] = ⟨0, 0⟩ :=
  C8_parse_version_text.1 [] (by decide)

/-- A patched entry-point slot: the 4 bytes at `slot` hold the address
value ORed with 1 (in 32 bits), so the stored pointer's low bit is set. -/
def patchedSlot (image : List Nat) (slot value : Nat) : Prop :=
  readInt32L image slot = (value ||| 1) % 2 ^ 32 ∧ readInt32L image slot % 2 = 1

theorem patchedSlot_of_read {image : List Nat} {slot value : Nat}
    (h : readInt32L image slot = (value ||| 1) % 2 ^ 32) :
    patchedSlot image slot value := by
  refine ⟨h, ?_⟩
  rw [h, Nat.mod_mod_of_dvd _ (by norm_num)]
  exact or_one_mod_two value

/-- Concrete image for the C1 counterexample: 80 zero bytes. -/
def romC1 : List Nat := List.replicate 80 0

/-- Concrete complete identification record with a non-major-3 version for
the C1 counterexample; `gax2_estimate` is chosen so that its tagged value
cannot arise from any other patched field. -/
def paramC1 : GaxDriverParam :=
  { version_text := [], version := ⟨2, 3⟩, gax2_estimate := 0x8765432,
    gax2_new := 0x8000202, gax2_init := 0x8000302, gax_irq := 0x8000402,
    gax_play := 0x8000502, gax_wram_pointer := 0, songs := [] }

/-- Image produced by the C1 counterexample installation. -/
def romC1' : List Nat :=
  (InstallGsfDriver romC1 0x8000008 0 7 paramC1).toOption.getD []

set_option maxRecDepth 2000 in
/-- C1 counterexample: under the non-major-3 template a successful
`InstallGsfDriver` does not write `gax2_estimate` anywhere: the install
succeeds, yet no 4-byte little-endian window of the patched image holds
`gax2_estimate ||| 1`, refuting the claim that all five entry-point
addresses are written under both templates. -/
theorem C1_counterexample :
    InstallGsfDriver romC1 0x8000008 0 7 paramC1 = .ok romC1' ∧
    (List.range romC1'.length).all
      (fun i => readInt32L romC1' i != (paramC1.gax2_estimate ||| 1) % 2 ^ 32) = true := by
  constructor
  · rfl
  · decide

/-- C1 (amended): a successful `InstallGsfDriver` writes the entry-point
addresses into the fixed slots of the copied template, each ORed with 1 —
all five (`gax2_estimate`, `gax2_new`, `gax2_init`, `gax_irq`, `gax_play`)
under the major-3 template, and the four other than `gax2_estimate` under
the non-major-3 template — so every patched entry-point pointer in the
image has its low bit set regardless of the input address's low bit. -/
theorem C1_entry_pointers_tagged :
    ∀ (rom : List Nat) (address work_address work_size : Nat)
      (param : GaxDriverParam) (rom' : List Nat),
      InstallGsfDriver rom address work_address work_size param = .ok rom' →
      (param.version.major_version = 3 →
        patchedSlot rom' (to_offset address + kGax2EstimateOffsetV3)
            param.gax2_estimate ∧
          patchedSlot rom' (to_offset address + kGax2NewOffsetV3) param.gax2_new ∧
          patchedSlot rom' (to_offset address + kGax2InitOffsetV3) param.gax2_init ∧
          patchedSlot rom' (to_offset address + kGaxIrqOffsetV3) param.gax_irq ∧
          patchedSlot rom' (to_offset address + kGaxPlayOffsetV3) param.gax_play) ∧
      (param.version.major_version ≠ 3 →
        patchedSlot rom' (to_offset address + kGax2NewOffsetV2) param.gax2_new ∧
          patchedSlot rom' (to_offset address + kGax2InitOffsetV2) param.gax2_init ∧
          patchedSlot rom' (to_offset address + kGaxIrqOffsetV2) param.gax_irq ∧
          patchedSlot rom' (to_offset address + kGaxPlayOffsetV2) param.gax_play) := by
  intro rom address work_address work_size param rom' h
  obtain ⟨h1, h2, hfit, heq⟩ := install_ok_elim h
  subst heq
  constructor
  · intro h3
    obtain ⟨r1, r2, r3, r4, r5, _⟩ :=
      @installPatch_v3_read rom (to_offset address)
        (resolveWorkAddress work_address param.gax_wram_pointer) work_size
        param h3 hfit
    refine ⟨patchedSlot_of_read ?_, patchedSlot_of_read ?_,
      patchedSlot_of_read ?_, patchedSlot_of_read ?_, patchedSlot_of_read ?_⟩
    · rw [readInt32L_writeInt32L_skip _
        (by simp only [kGax2EstimateOffsetV3]; omega) _]
      exact r1
    · rw [readInt32L_writeInt32L_skip _
        (by simp only [kGax2NewOffsetV3]; omega) _]
      exact r2
    · rw [readInt32L_writeInt32L_skip _
        (by simp only [kGax2InitOffsetV3]; omega) _]
      exact r3
    · rw [readInt32L_writeInt32L_skip _
        (by simp only [kGaxIrqOffsetV3]; omega) _]
      exact r4
    · rw [readInt32L_writeInt32L_skip _
        (by simp only [kGaxPlayOffsetV3]; omega) _]
      exact r5
  · intro h3
    obtain ⟨r1, r2, r3, r4, _⟩ :=
      @installPatch_v2_read rom (to_offset address)
        (resolveWorkAddress work_address param.gax_wram_pointer) work_size
        param h3 hfit
    refine ⟨patchedSlot_of_read ?_, patchedSlot_of_read ?_,
      patchedSlot_of_read ?_, patchedSlot_of_read ?_⟩
    · rw [readInt32L_writeInt32L_skip _
        (by simp only [kGax2NewOffsetV2]; omega) _]
      exact r1
    · rw [readInt32L_writeInt32L_skip _
        (by simp only [kGax2InitOffsetV2]; omega) _]
      exact r2
    · rw [readInt32L_writeInt32L_skip _
        (by simp only [kGaxIrqOffsetV2]; omega) _]
      exact r3
    · rw [readInt32L_writeInt32L_skip _
        (by simp only [kGaxPlayOffsetV2]; omega) _]
      exact r4

/-- C1 witness: in the concrete non-major-3 installation of the
counterexample image, the four non-estimate entry slots are patched with
their low bit set. -/
theorem C1_entry_pointers_tagged_witness :
    patchedSlot romC1' (to_offset 0x8000008 + kGax2NewOffsetV2) paramC1.gax2_new ∧
    patchedSlot romC1' (to_offset 0x8000008 + kGax2InitOffsetV2) paramC1.gax2_init ∧
    patchedSlot romC1' (to_offset 0x8000008 + kGaxIrqOffsetV2) paramC1.gax_irq ∧
    patchedSlot romC1' (to_offset 0x8000008 + kGaxPlayOffsetV2) paramC1.gax_play :=
  (C1_entry_pointers_tagged romC1 0x8000008 0 7 paramC1 romC1' (by rfl)).2
    (by decide)

/-- C6: a successful installation mutates only the template block of
`gsf_driver_size` bytes at the target offset and the image's first 4
bytes — the latter overwritten with the little-endian encoding of the
unconditional ARM branch from the platform entry address `0x8000000` to
the target address; every other byte (and the image length) is unchanged.
The identification record is consumed immutably by construction of the
embedding, mirroring the C++ `const` reference. -/
theorem C6_install_frame :
    ∀ (rom : List Nat) (address work_address work_size : Nat)
      (param : GaxDriverParam) (rom' : List Nat),
      InstallGsfDriver rom address work_address work_size param = .ok rom' →
      rom'.length = rom.length ∧
      readInt32L rom' 0 = make_arm_b 0x8000000 address ∧
      (∀ j, 4 ≤ j →
        (j < to_offset address ∨
          to_offset address + gsf_driver_size param.version ≤ j) →
        rom'.getD j 0 = rom.getD j 0) := by
  intro rom address work_address work_size param rom' h
  obtain ⟨h1, h2, hfit, heq⟩ := install_ok_elim h
  subst heq
  have hsize : gsf_driver_size param.version = 48 ∨
      gsf_driver_size param.version = 40 := by
    unfold gsf_driver_size
    split_ifs <;> simp [gax3_driver_block, gax2_driver_block]
  have hlen : (installPatch rom (to_offset address)
      (resolveWorkAddress work_address param.gax_wram_pointer) work_size
      param).length = rom.length := length_installPatch hfit
  refine ⟨?_, ?_, ?_⟩
  · rw [length_writeInt32L, hlen]
  · rw [readInt32L_writeInt32L_self _ (by rw [hlen]; omega) _]
    exact Nat.mod_eq_of_lt (make_arm_b_lt _ _)
  · intro j hj4 hjout
    rw [getD_writeInt32L_ne _ (by omega) _ _]
    exact getD_installPatch_outside hfit hjout

/-- C6 witness: concrete successful installation; the length is preserved,
the entry vector holds the encoded branch, and byte 70 (outside both the
template block and the entry vector) is untouched. -/
theorem C6_install_frame_witness :
    romC3'.length = romC3.length ∧
    readInt32L romC3' 0 = make_arm_b 0x8000000 0x8000010 ∧
    romC3'.getD 70 0 = romC3.getD 70 0 :=
  ⟨(C6_install_frame romC3 0x8000010 agbnullptr 0 paramC3 romC3' (by rfl)).1,
    (C6_install_frame romC3 0x8000010 agbnullptr 0 paramC3 romC3' (by rfl)).2.1,
    (C6_install_frame romC3 0x8000010 agbnullptr 0 paramC3 romC3' (by rfl)).2.2
      70 (by decide) (by decide)⟩

/-- Behaviour common to the five entry-point finders as the claim states
it: either no pattern of the ordered list occurs at or after the lower
bound and the result is the null address, or the list splits as
`ps₁ ++ p :: ps₂` where no earlier alternative `q ∈ ps₁` occurs anywhere
at or after the lower bound, `p` occurs first at `n` (no earlier
occurrence of `p` from the lower bound on), and the result is `n`
converted to a ROM address. -/
def FinderSpec (find : List Nat → Nat → Nat)
    (patterns : List (List Nat)) : Prop :=
  ∀ (rom : List Nat) (offset : Nat),
    (find rom offset = agbnullptr ∧
      ∀ p ∈ patterns, ∀ n, offset ≤ n → matchesAt rom p n = false) ∨
    (∃ ps₁ p ps₂ n, patterns = ps₁ ++ p :: ps₂ ∧ offset ≤ n ∧
      matchesAt rom p n = true ∧
      (∀ m, offset ≤ m → m < n → matchesAt rom p m = false) ∧
      (∀ q ∈ ps₁, ∀ m, offset ≤ m → matchesAt rom q m = false) ∧
      find rom offset = to_romptr (n % 2 ^ 32))

/-- C4: each of the five entry-point finders tries its alternative byte
patterns in listed order; the first pattern with a textual match wins, at
its first occurrence scanning forward from the lower bound, and the match's
byte offset is converted to a ROM address; if no pattern matches at or
after the lower bound the null address is returned (and, the functions
being total, no exception is raised). -/
theorem C4_finders_first_match :
    FinderSpec (fun rom offset => FindGax2Estimate rom offset) gax2EstimatePatterns ∧
    FinderSpec (fun rom offset => FindGax2New rom offset) gax2NewPatterns ∧
    FinderSpec (fun rom offset => FindGax2Init rom offset) gax2InitPatterns ∧
    FinderSpec (fun rom offset => FindGaxIrq rom offset) gaxIrqPatterns ∧
    FinderSpec (fun rom offset => FindGaxPlay rom offset) gaxPlayPatterns :=
  ⟨fun rom offset => find_pattern_cases gax2EstimatePatterns rom offset (by decide),
    fun rom offset => find_pattern_cases gax2NewPatterns rom offset (by decide),
    fun rom offset => find_pattern_cases gax2InitPatterns rom offset (by decide),
    fun rom offset => find_pattern_cases gaxIrqPatterns rom offset (by decide),
    fun rom offset => find_pattern_cases gaxPlayPatterns rom offset (by decide)⟩

/-- C10: in every record produced by `Inspect` (of an image no larger than
the ROM region), a non-null `gax2_estimate` bounds the other four entry
points from below: each of `gax2_new`, `gax2_init`, `gax_irq`, `gax_play`
is either the null address or an address whose flat image offset is at
least the offset of `gax2_estimate`, because those four scans start at the
estimate's offset. -/
theorem C10_scan_lower_bound :
    ∀ rom : List Nat, rom.length ≤ 0x2000000 →
      (Inspect rom).gax2_estimate ≠ agbnullptr →
      ((Inspect rom).gax2_new = agbnullptr ∨
        to_offset (Inspect rom).gax2_estimate ≤ to_offset (Inspect rom).gax2_new) ∧
      ((Inspect rom).gax2_init = agbnullptr ∨
        to_offset (Inspect rom).gax2_estimate ≤ to_offset (Inspect rom).gax2_init) ∧
      ((Inspect rom).gax_irq = agbnullptr ∨
        to_offset (Inspect rom).gax2_estimate ≤ to_offset (Inspect rom).gax_irq) ∧
      ((Inspect rom).gax_play = agbnullptr ∨
        to_offset (Inspect rom).gax2_estimate ≤ to_offset (Inspect rom).gax_play) := by
  intro rom hrom hne
  have hest : (Inspect rom).gax2_estimate = FindGax2Estimate rom 0 := by
    simp [Inspect]
  rw [hest] at hne ⊢
  obtain ⟨e, he0, helen, heq⟩ :=
    find_pattern_ne_null gax2EstimatePatterns rom 0 (by decide) hne
  have hemod : e % 2 ^ 32 = e := Nat.mod_eq_of_lt (by omega)
  have hoff : to_offset (FindGax2Estimate rom 0) = e := by
    rw [show FindGax2Estimate rom 0 =
        find_pattern gax2EstimatePatterns rom 0 from rfl, heq, hemod]
    exact to_offset_to_romptr (by omega)
  rw [hoff]
  have key : ∀ (patterns : List (List Nat)), (∀ p ∈ patterns, p ≠ []) →
      find_pattern patterns rom (to_offset (FindGax2Estimate rom 0)) = agbnullptr ∨
        e ≤ to_offset (find_pattern patterns rom
          (to_offset (FindGax2Estimate rom 0))) := by
    intro patterns hp
    by_cases hnull :
      find_pattern patterns rom (to_offset (FindGax2Estimate rom 0)) = agbnullptr
    · exact Or.inl hnull
    · obtain ⟨m, hm0, hmlen, hmeq⟩ :=
        find_pattern_ne_null patterns rom _ hp hnull
      right
      rw [hmeq, Nat.mod_eq_of_lt (by omega), to_offset_to_romptr (by omega)]
      rw [hoff] at hm0
      exact hm0
  have hnew : (Inspect rom).gax2_new =
      FindGax2New rom (to_offset (FindGax2Estimate rom 0)) := by
    simp [Inspect]
  have hinit : (Inspect rom).gax2_init =
      FindGax2Init rom (to_offset (FindGax2Estimate rom 0)) := by
    simp [Inspect]
  have hirq : (Inspect rom).gax_irq =
      FindGaxIrq rom (to_offset (FindGax2Estimate rom 0)) := by
    simp [Inspect]
  have hplay : (Inspect rom).gax_play =
      FindGaxPlay rom (to_offset (FindGax2Estimate rom 0)) := by
    simp [Inspect]
  exact ⟨hnew ▸ key gax2NewPatterns (by decide),
    hinit ▸ key gax2InitPatterns (by decide),
    hirq ▸ key gaxIrqPatterns (by decide),
    hplay ▸ key gaxPlayPatterns (by decide)⟩

theorem matchesAt_iff {l p : List Nat} {m : Nat} :
    matchesAt l p m = true ↔ (l.drop m).take p.length = p := by
  unfold matchesAt
  exact beq_iff_eq

theorem getD_take {l : List Nat} {n m : Nat} (h : m < n) (d : Nat) :
    (l.take n).getD m d = l.getD m d := by
  rw [List.getD_eq_getElem?_getD, List.getElem?_take, if_pos h,
    ← List.getD_eq_getElem?_getD]

theorem matchesAt_singleton {l : List Nat} {b m : Nat} :
    matchesAt l [b] m = true ↔ m < l.length ∧ l.getD m 0 = b := by
  rw [matchesAt_iff]
  cases hd : l.drop m with
  | nil =>
    have hlen : l.length ≤ m := by
      have := congrArg List.length hd
      simp only [List.length_drop, List.length_nil] at this
      omega
    constructor
    · intro h
      simp at h
    · intro ⟨h, _⟩
      omega
  | cons x xs =>
    have hx : l.getD m 0 = x := by
      have h0 : (l.drop m)[0]? = some x := by
        rw [hd]
        simp
      rw [List.getElem?_drop, Nat.add_zero] at h0
      rw [List.getD_eq_getElem?_getD, h0]
      rfl
    have hm : m < l.length := by
      have := congrArg List.length hd
      simp only [List.length_drop, List.length_cons] at this
      omega
    simp only [List.length_cons, List.length_nil, List.take_succ_cons,
      List.take_zero, hx, hm, true_and]
    constructor
    · intro h
      cases h
      rfl
    · intro h
      rw [h]

theorem take_eq_takeWhile (f : Nat → Bool) :
    ∀ (l : List Nat) (e : Nat), e ≤ l.length →
      (∀ m, m < e → f (l.getD m 0) = true) →
      (e < l.length → f (l.getD e 0) = false) →
      l.take e = l.takeWhile f := by
  intro l
  induction l with
  | nil =>
    intro e he _ _
    simp only [List.length_nil, Nat.le_zero] at he
    simp [he]
  | cons a t ih =>
    intro e he hall hstop
    cases e with
    | zero =>
      have hf : f a = false := by
        simpa using hstop (by simp)
      simp [List.takeWhile_cons, hf]
    | succ e' =>
      have hf : f a = true := by
        simpa using hall 0 (by omega)
      rw [List.take_succ_cons, List.takeWhile_cons, if_pos hf]
      congr 1
      refine ih e' (by simpa using he) ?_ ?_
      · intro m hm
        simpa using hall (m + 1) (by omega)
      · intro hlt
        simpa using hstop (by simpa using hlt)

theorem strFind_single_take {w : List Nat} {b e : Nat}
    (h : strFind w [b] 0 = some e) :
    e < w.length ∧ w.getD e 0 = b ∧
      w.take e = w.takeWhile (fun x => x != b) := by
  obtain ⟨-, hm, hmin⟩ := strFind_some h
  obtain ⟨hlt, hb⟩ := matchesAt_singleton.mp hm
  refine ⟨hlt, hb, ?_⟩
  refine take_eq_takeWhile _ w e (by omega) ?_ ?_
  · intro m hme
    have hmf := hmin m (by omega) hme
    have hgd : w.getD m 0 ≠ b := by
      intro hb'
      rw [matchesAt_singleton.mpr ⟨by omega, hb'⟩] at hmf
      cases hmf
    simpa [bne_iff_ne] using hgd
  · intro _
    rw [hb]
    simp

theorem strFind_single_none {w : List Nat} {b : Nat}
    (h : strFind w [b] 0 = none) :
    w.takeWhile (fun x => x != b) = w ∧ b ∉ w := by
  have hnone := strFind_none (by simp) h
  have hgd : ∀ m, m < w.length → w.getD m 0 ≠ b := by
    intro m hm hb
    have hx := hnone m (by omega)
    rw [matchesAt_singleton.mpr ⟨hm, hb⟩] at hx
    cases hx
  constructor
  · have := take_eq_takeWhile (fun x => x != b) w w.length le_rfl
      (fun m hm => by simpa [bne_iff_ne] using hgd m hm)
      (fun hlt => absurd hlt (by omega))
    rw [List.take_length] at this
    exact this.symm
  · intro hmem
    obtain ⟨n, hn, hval⟩ := List.mem_iff_getElem.mp hmem
    exact hgd n hn (by rw [List.getD_eq_getElem _ _ hn, hval])

theorem mem_of_getD {l : List Nat} {n b : Nat} (hn : n < l.length)
    (h : l.getD n 0 = b) : b ∈ l :=
  List.mem_iff_getElem.mpr ⟨n, hn, by rw [← List.getD_eq_getElem _ 0 hn, h]⟩

theorem dropLast_take {l : List Nat} {c : Nat} (h : c ≤ l.length) :
    (l.take c).dropLast = l.take (c - 1) := by
  rw [List.dropLast_eq_take, List.length_take, List.take_take]
  congr 1
  have h1 : c ⊓ l.length = c := Nat.min_eq_left h
  rw [h1]
  exact Nat.min_eq_left (by omega)

/-- C9: `FindGaxVersionText` returns the empty string when the marker does
not occur at or after the lower bound; otherwise the result is the window
of at most 128 bytes starting at the found marker occurrence, truncated at
the first null byte, and — when a copyright byte `0xa9` is present —
truncated again at that byte with one additional preceding separator byte
trimmed. -/
theorem C9_find_version_text :
    ∀ (rom : List Nat) (offset : Nat),
      (strFind rom versionTextMarker offset = none →
        FindGaxVersionText rom offset = []) ∧
      (∀ p, strFind rom versionTextMarker offset = some p →
        FindGaxVersionText rom offset =
          (if 0xa9 ∈ ((rom.drop p).take 128).takeWhile (fun b => b != 0) then
            ((((rom.drop p).take 128).takeWhile (fun b => b != 0)).takeWhile
              (fun b => b != 0xa9)).dropLast
          else ((rom.drop p).take 128).takeWhile (fun b => b != 0))) := by
  intro rom offset
  constructor
  · intro h
    unfold FindGaxVersionText
    rw [h]
  · intro p hp
    have hmm := (strFind_some hp).2.1
    have hmlen : versionTextMarker.length = 17 := by decide
    have hplen := matchesAt_length_le (by decide) hmm
    have hwlen : 17 ≤ ((rom.drop p).take 128).length := by
      simp only [List.length_take, List.length_drop]
      omega
    have hw0 : ((rom.drop p).take 128).getD 0 0 = 71 := by
      rw [getD_take (by omega) 0]
      have htk : (rom.drop p).take versionTextMarker.length =
          versionTextMarker := matchesAt_iff.mp hmm
      rw [← getD_take (show (0 : Nat) < versionTextMarker.length by omega) 0,
        htk]
      decide
    unfold FindGaxVersionText
    rw [hp]
    dsimp only
    cases hz : strFind ((rom.drop p).take 128) [0] 0 with
    | none =>
      dsimp only
      obtain ⟨hnt, -⟩ := strFind_single_none hz
      rw [hnt]
      cases hcc : strFind ((rom.drop p).take 128) [0xa9] 0 with
      | none =>
        dsimp only
        obtain ⟨-, hnotmem⟩ := strFind_single_none hcc
        rw [if_neg hnotmem]
      | some c =>
        dsimp only
        obtain ⟨hclt, hcval, htake⟩ := strFind_single_take hcc
        have hc0 : c ≠ 0 := by
          intro h0
          rw [h0, hw0] at hcval
          omega
        have hmem : (0xa9 : Nat) ∈ (rom.drop p).take 128 :=
          mem_of_getD hclt hcval
        rw [if_pos hmem, if_neg hc0, ← htake, dropLast_take (by omega)]
    | some e =>
      dsimp only
      obtain ⟨helt, heval, htake0⟩ := strFind_single_take hz
      have he0 : e ≠ 0 := by
        intro h0
        rw [h0, hw0] at heval
        omega
      have hnt0 : (((rom.drop p).take 128).take e).getD 0 0 = 71 := by
        rw [getD_take (by omega) 0]
        exact hw0
      have hntlen : 0 < (((rom.drop p).take 128).take e).length := by
        rw [List.length_take, Nat.min_def]
        split_ifs <;> omega
      rw [htake0]
      cases hcc : strFind
          (((rom.drop p).take 128).takeWhile (fun x => x != 0)) [0xa9] 0 with
      | none =>
        dsimp only
        obtain ⟨-, hnotmem⟩ := strFind_single_none hcc
        rw [if_neg hnotmem]
      | some c =>
        dsimp only
        obtain ⟨hclt, hcval, htake⟩ := strFind_single_take hcc
        have hc0 : c ≠ 0 := by
          intro h0
          rw [h0] at hcval
          rw [← htake0, hnt0] at hcval
          omega
        have hmem : (0xa9 : Nat) ∈
            ((rom.drop p).take 128).takeWhile (fun x => x != 0) :=
          mem_of_getD hclt hcval
        rw [if_pos hmem, if_neg hc0, ← htake, dropLast_take (by omega)]

/-- Concrete image for the C9 witness: the marker followed by `"v3"` and a
null byte. -/
def romC9 : List Nat := versionTextMarker ++ [118, 51, 0]

/-- C9 witness: on the concrete image the marker is found at offset 0 and
the returned text is the null-truncated window starting at the marker. -/
theorem C9_find_version_text_witness :
    FindGaxVersionText romC9 0 =
      (if 0xa9 ∈ ((romC9.drop 0).take 128).takeWhile (fun b => b != 0) then
        ((((romC9.drop 0).take 128).takeWhile (fun b => b != 0)).takeWhile
          (fun b => b != 0xa9)).dropLast
      else ((romC9.drop 0).take 128).takeWhile (fun b => b != 0)) :=
  (C9_find_version_text romC9 0).2 0 (by decide)

/-- Concrete image for the C10 witness: exactly the GAX 3 `gax2_estimate`
signature bytes, so `Inspect` finds the estimate at offset 0. -/
def romC10 : List Nat :=
  [0xf0, 0xb5, 0x57, 0x46, 0x4e, 0x46, 0x45, 0x46, 0xe0, 0xb4, 0x82, 0xb0,
   0x07, 0x1c, 0x00, 0x24, 0x00, 0x20, 0x00, 0x90]

set_option maxRecDepth 4000 in
/-- C10 witness: on the concrete image the estimate is non-null and every
other entry point is null or at an offset at least the estimate's. -/
theorem C10_scan_lower_bound_witness :
    ((Inspect romC10).gax2_new = agbnullptr ∨
      to_offset (Inspect romC10).gax2_estimate ≤
        to_offset (Inspect romC10).gax2_new) ∧
    ((Inspect romC10).gax2_init = agbnullptr ∨
      to_offset (Inspect romC10).gax2_estimate ≤
        to_offset (Inspect romC10).gax2_init) ∧
    ((Inspect romC10).gax_irq = agbnullptr ∨
      to_offset (Inspect romC10).gax2_estimate ≤
        to_offset (Inspect romC10).gax_irq) ∧
    ((Inspect romC10).gax_play = agbnullptr ∨
      to_offset (Inspect romC10).gax2_estimate ≤
        to_offset (Inspect romC10).gax_play) :=
  C10_scan_lower_bound romC10 (by decide) (by decide)

end Gaxtapper
